import Mathlib

/-!
Verification development for the fake-hardware loopback backend
(`fake_components::GenericSystem`, `src/hardware_interface/src/fake_components/generic_system.cpp`)
and the real-time controller-list double buffer
(`controller_manager::ControllerManager::RTControllerListWrapper`,
`src/controller_manager/include/controller_manager/controller_manager.hpp`).

Values of type `double` are modelled as `Option ℚ`: `some q` is a finite
value, `none` is the NaN "unset" sentinel (`std::isnan` tests become
`Option.isSome` tests).  Division by zero, which in IEEE arithmetic yields a
non-finite value (±inf or NaN), is also mapped to `none`; no `std::isnan`
test in this component is ever applied to a value produced by the division,
so the collapse is observationally harmless.
-/

attribute [local semireducible] Rat.add Rat.mul Rat.sub Rat.inv

/-- Model of a C++ `double` cell: `some q` is a finite value, `none` is NaN. -/
abbrev Val := Option ℚ

/-- Addition on doubles; NaN propagates. -/
def vAdd : Val → Val → Val
  | some a, some b => some (a + b)
  | _, _ => none

/-- Subtraction on doubles; NaN propagates. -/
def vSub : Val → Val → Val
  | some a, some b => some (a - b)
  | _, _ => none

/-- Multiplication on doubles; NaN propagates. -/
def vMul : Val → Val → Val
  | some a, some b => some (a * b)
  | _, _ => none

/-- Division on doubles; NaN propagates and a zero divisor yields the
non-finite result `none` (IEEE ±inf or NaN). -/
def vDiv : Val → Val → Val
  | some a, some b => if b = 0 then none else some (a / b)
  | _, _ => none

/-- Read cell `(i, j)` of a row-major matrix `std::vector<std::vector<double>>`;
row `i` is the interface, column `j` the joint. -/
def getCell (m : List (List Val)) (i j : ℕ) : Val :=
  (m.getD i []).getD j none

/-- Mirror of `hardware_interface::ComponentInfo`: a joint or sensor with its
name, its `parameters` map (modelled as an association list with the map's
unique-key lookup) and its declared command/state interface names. -/
structure ComponentInfo where
  name : String
  parameters : List (String × String)
  command_interfaces : List String
  state_interfaces : List String
deriving DecidableEq, Inhabited

/-- Mirror of `hardware_interface::HardwareInfo`: hardware-level parameters and
the joint and sensor component lists parsed from the resource description. -/
structure HardwareInfo where
  hardware_parameters : List (String × String)
  joints : List ComponentInfo
  sensors : List ComponentInfo
deriving DecidableEq, Inhabited

/-- Lookup in a `std::map<std::string, std::string>` (`.find` + `.end` check). -/
def lookupParam (ps : List (String × String)) (k : String) : Option String :=
  (ps.find? (fun p => p.1 = k)).map (fun p => p.2)

/-- Model of `std::stod` on the plain decimal literals used by the resource
description: optional minus sign, digits, optional fraction.  `none` models
the `std::invalid_argument` exception, which aborts configuration. -/
def stodDigits : List Char → Option ℕ
  | [] => some 0
  | c :: cs =>
    if c.isDigit then
      (stodDigits cs).map (fun n => (c.toNat - '0'.toNat) * 10 ^ cs.length + n)
    else
      none

/-- Parse the integer and optional fractional part of a decimal literal. -/
def stodParts : List Char → Option ℚ
  | cs =>
    match cs.splitOn '.' with
    | [intPart] =>
      if intPart.isEmpty then none else (stodDigits intPart).map (fun n => (n : ℚ))
    | [intPart, fracPart] =>
      if intPart.isEmpty && fracPart.isEmpty then none
      else
        match stodDigits intPart, stodDigits fracPart with
        | some n, some f => some ((n : ℚ) + (f : ℚ) / (10 : ℚ) ^ fracPart.length)
        | _, _ => none
    | _ => none

/-- Model of `std::stod`; `none` aborts configuration like the C++ exception. -/
def stod (s : String) : Option ℚ :=
  match s.data with
  | '-' :: rest => (stodParts rest).map (fun q => -q)
  | cs => stodParts cs

/-- Option-valued `map` with early exit: models a C++ loop whose body may
throw (the exception propagates out of `configure`). -/
def mapMO (f : α → Option β) : List α → Option (List β)
  | [] => some []
  | a :: l =>
    match f a, mapMO f l with
    | some b, some bs => some (b :: bs)
    | _, _ => none

/-- Mirror of `fake_components::MimicJoint` (declared in
`fake_components/generic_system.hpp`): follower index, leader index and the
multiplier, which the header defaults to `1.0`. -/
structure MimicJoint where
  joint_index : ℕ
  mimicked_joint_index : ℕ
  multiplier : ℚ := 1
deriving DecidableEq, Inhabited

/-- Mirror of the `StoppingInterface` enumeration used by the mode gate. -/
inductive StoppingInterface
  | NONE
  | STOP_POSITION
  | STOP_VELOCITY
deriving DecidableEq, Inhabited

/-- Mirror of `hardware_interface::return_type`. -/
inductive ReturnType
  | OK
  | ERROR
deriving DecidableEq, Inhabited

/-- Modelled from the spec: the fixed standard interface vocabulary is
declared in `fake_components/generic_system.hpp`, which is not under `src/`;
the spec fixes "position, velocity, effort, etc." with position at row 0 and
velocity at row 1 (`POSITION_INTERFACE_INDEX` / `VELOCITY_INTERFACE_INDEX`). -/
def standardInterfacesDefault : List String :=
  ["position", "velocity", "acceleration", "effort"]

/-- Row index of the position interface (`POSITION_INTERFACE_INDEX`). -/
def POS_IDX : ℕ := 0

/-- Row index of the velocity interface (`VELOCITY_INTERFACE_INDEX`). -/
def VEL_IDX : ℕ := 1

/-- The full mutable state of a `fake_components::GenericSystem` object:
the stored resource description, the interface catalogs, the command/state
storage matrices, the mimic list, the configuration flags and the mode-gate
scratch state.  `index_custom_interface_with_following_offset` uses `none`
for the C++ sentinel `std::numeric_limits<size_t>::max()` (never a valid row
index). -/
structure GenericSystem where
  info : HardwareInfo
  standard_interfaces : List String
  other_interfaces : List String
  sensor_interfaces : List String
  joint_commands : List (List Val)
  joint_states : List (List Val)
  joint_pos_commands_old : List Val
  other_commands : List (List Val)
  other_states : List (List Val)
  sensor_fake_commands : List (List Val)
  sensor_states : List (List Val)
  mimic_joints : List MimicJoint
  fake_sensor_command_interfaces : Bool
  command_propagation_disabled : Bool
  position_state_following_offset : ℚ
  custom_interface_with_following_offset : String
  index_custom_interface_with_following_offset : Option ℕ
  position_controller_running : Bool
  velocity_controller_running : Bool
  start_modes : List String
  stop_modes : List StoppingInterface
deriving DecidableEq, Inhabited

/-- One mimic overwrite on a single interface row (`generic_system.cpp:473`):
the follower's cell becomes multiplier times the leader's cell of that row. -/
def applyMimicRow (m : MimicJoint) (row : List Val) : List Val :=
  row.set m.joint_index (vMul (some m.multiplier) (row.getD m.mimicked_joint_index none))

/-- One mimic relation applied to every interface row
(`generic_system.cpp:469-476`, the loop over `i < joint_states_.size()`). -/
def applyMimic (m : MimicJoint) (states : List (List Val)) : List (List Val) :=
  states.map (applyMimicRow m)

/-- Guard of the position branch of `GenericSystem::read`
(`generic_system.cpp:425-427`): position command not NaN, command propagation
enabled, position controller running. -/
def posUpdateActive (s : GenericSystem) (j : ℕ) : Prop :=
  (getCell s.joint_commands POS_IDX j).isSome = true ∧
    s.command_propagation_disabled = false ∧ s.position_controller_running = true

instance (s : GenericSystem) (j : ℕ) : Decidable (posUpdateActive s j) := by
  unfold posUpdateActive; infer_instance

/-- Guard of the velocity branch of `GenericSystem::read`
(`generic_system.cpp:442-444`): velocity command not NaN, command propagation
enabled, velocity controller running. -/
def velUpdateActive (s : GenericSystem) (j : ℕ) : Prop :=
  (getCell s.joint_commands VEL_IDX j).isSome = true ∧
    s.command_propagation_disabled = false ∧ s.velocity_controller_running = true

instance (s : GenericSystem) (j : ℕ) : Decidable (velUpdateActive s j) := by
  unfold velUpdateActive; infer_instance

/-- Phase 1 of `GenericSystem::read` — "apply offset to positions only"
(`generic_system.cpp:422-437`): for every active position joint, position
state = position command + offset (offset only while no custom offset
interface name is configured), and, when the standard vocabulary has a
velocity row, velocity state = (position command - previous position
command) / dt. -/
def readPhase1 (dt : ℚ) (s : GenericSystem) : List (List Val) :=
  let posRow1 := (s.joint_states.getD POS_IDX []).mapIdx (fun j old =>
    if posUpdateActive s j then
      vAdd (getCell s.joint_commands POS_IDX j)
        (some (if s.custom_interface_with_following_offset = "" then
          s.position_state_following_offset else 0))
    else old)
  let velRow1 :=
    if 1 < s.standard_interfaces.length then
      (s.joint_states.getD VEL_IDX []).mapIdx (fun j old =>
        if posUpdateActive s j then
          vDiv (vSub (getCell s.joint_commands POS_IDX j) (s.joint_pos_commands_old.getD j none))
            (some dt)
        else old)
    else s.joint_states.getD VEL_IDX []
  (s.joint_states.set POS_IDX posRow1).set VEL_IDX velRow1

/-- Phase 2 of `GenericSystem::read`, state half — the velocity branch
(`generic_system.cpp:439-450`): for every active velocity joint, position
state += velocity command * dt and velocity state = velocity command. -/
def readPhase2 (dt : ℚ) (s : GenericSystem) : List (List Val) :=
  let js1 := readPhase1 dt s
  let posRow2 := (js1.getD POS_IDX []).mapIdx (fun j old =>
    if velUpdateActive s j then vAdd old (vMul (getCell s.joint_commands VEL_IDX j) (some dt))
    else old)
  let velRow2 := (js1.getD VEL_IDX []).mapIdx (fun j old =>
    if velUpdateActive s j then getCell s.joint_commands VEL_IDX j else old)
  (js1.set POS_IDX posRow2).set VEL_IDX velRow2

/-- Phase 2 of `GenericSystem::read`, command half (`generic_system.cpp:451`):
for every active velocity joint the position command is resynchronized to the
freshly integrated position state. -/
def readCommands (dt : ℚ) (s : GenericSystem) : List (List Val) :=
  let js2 := readPhase2 dt s
  let posCmdRow := (s.joint_commands.getD POS_IDX []).mapIdx (fun j old =>
    if velUpdateActive s j then getCell js2 POS_IDX j else old)
  s.joint_commands.set POS_IDX posCmdRow

/-- Phase 4 of `GenericSystem::read` — loopback on the standard rows from
index 2 on (`generic_system.cpp:458-468`): state = command whenever the
command is not NaN. -/
def readPhase4 (dt : ℚ) (s : GenericSystem) : List (List Val) :=
  let jc2 := readCommands dt s
  (readPhase2 dt s).mapIdx (fun i row =>
    if 2 ≤ i then
      row.mapIdx (fun j old =>
        match getCell jc2 i j with
        | some c => some c
        | none => old)
    else row)

/-- Phases 1-5 of `GenericSystem::read` on the joint states: the propagation
phases followed by the mimic overwrites in list order
(`generic_system.cpp:469-476`). -/
def readJointStates (dt : ℚ) (s : GenericSystem) : List (List Val) :=
  s.mimic_joints.foldl (fun st m => applyMimic m st) (readPhase4 dt s)

/-- Phase 6 of `GenericSystem::read` — the non-standard ("other") interface
loopback (`generic_system.cpp:478-494`): the row designated by the
following-offset binding gets position command + offset whenever the position
command is set; every other cell loops back its command when set. -/
def readOtherStates (dt : ℚ) (s : GenericSystem) : List (List Val) :=
  let jc2 := readCommands dt s
  s.other_states.mapIdx (fun i row =>
    row.mapIdx (fun j old =>
      if s.index_custom_interface_with_following_offset = some i ∧
          (getCell jc2 POS_IDX j).isSome = true then
        vAdd (getCell jc2 POS_IDX j) (some s.position_state_following_offset)
      else
        match getCell s.other_commands i j with
        | some c => some c
        | none => old))

/-- Phase 7 of `GenericSystem::read` — fake sensor loopback when enabled
(`generic_system.cpp:496-508`). -/
def readSensorStates (s : GenericSystem) : List (List Val) :=
  if s.fake_sensor_command_interfaces then
    s.sensor_states.mapIdx (fun i row =>
      row.mapIdx (fun j old =>
        match getCell s.sensor_fake_commands i j with
        | some c => some c
        | none => old))
  else s.sensor_states

/-- One call of `GenericSystem::read` (`generic_system.cpp:415-510`).  The
elapsed time `period_`, computed there from the wall clock, is the explicit
parameter `dt` (in seconds); all other effects of `read` are the sequential
state updates of the phase functions above, in source order: position branch,
velocity branch with position-command resync, previous-position-command
memory, standard-row loopback, mimic overwrites, other-interface loopback
with the following-offset override, fake sensor loopback. -/
def read (dt : ℚ) (s : GenericSystem) : GenericSystem :=
  { s with
    joint_states := readJointStates dt s
    joint_commands := readCommands dt s
    joint_pos_commands_old := (readCommands dt s).getD POS_IDX []
    other_states := readOtherStates dt s
    sensor_states := readSensorStates s }

/-- Discovery of the non-standard ("other") interface vocabulary
(`generic_system.cpp:133-166`): every command interface then every state
interface of every joint, in order, appended when it is neither a standard
name nor already discovered. -/
def discoverOther (standard : List String) (joints : List ComponentInfo) : List String :=
  joints.foldl (fun acc jt =>
    let acc1 := jt.command_interfaces.foldl (fun a ifc =>
      if ifc ∈ standard ∨ ifc ∈ a then a else a ++ [ifc]) acc
    jt.state_interfaces.foldl (fun a ifc =>
      if ifc ∈ standard ∨ ifc ∈ a then a else a ++ [ifc]) acc1) []

/-- Discovery of the sensor interface vocabulary (`generic_system.cpp:193-204`):
every sensor state interface, in order, deduplicated. -/
def discoverSensor (sensors : List ComponentInfo) : List String :=
  sensors.foldl (fun acc sn =>
    sn.state_interfaces.foldl (fun a ifc => if ifc ∈ a then a else a ++ [ifc]) acc) []

/-- The command half of `GenericSystem::initialize_storage_vectors`
(`generic_system.cpp:534-540`): one row per interface, one cell per joint of
`info_.joints` (also for the sensor vocabulary), every cell NaN. -/
def initCommands (joints : List ComponentInfo) (interfaces : List String) : List (List Val) :=
  interfaces.map (fun _ => joints.map (fun _ => (none : Val)))

/-- The state half of `GenericSystem::initialize_storage_vectors`
(`generic_system.cpp:536-554`): every cell NaN, then overwritten by the
parsed `initial_<interface>` joint parameter when declared; a parse failure
aborts configuration (the C++ `std::stod` exception). -/
def initStates (joints : List ComponentInfo) (interfaces : List String) :
    Option (List (List Val)) :=
  mapMO (fun ifc =>
    mapMO (fun jt =>
      match lookupParam jt.parameters ("initial_" ++ ifc) with
      | some str => (stod str).map some
      | none => some (none : Val)) joints) interfaces

/-- The mimic-joint scan of `GenericSystem::configure`
(`generic_system.cpp:105-132`): for every joint with a `mimic` parameter,
resolve the mimicked joint's index (failure to resolve aborts configuration)
and parse the optional `multiplier` parameter (default 1). -/
def scanMimics (joints : List ComponentInfo) : Option (List MimicJoint) :=
  (mapMO (fun p =>
    match lookupParam p.2.parameters "mimic" with
    | none => some []
    | some nm =>
      match joints.findIdx? (fun jt => jt.name = nm) with
      | none => none
      | some leader =>
        match lookupParam p.2.parameters "multiplier" with
        | none => some [{ joint_index := p.1, mimicked_joint_index := leader, multiplier := 1 }]
        | some ms =>
          (stod ms).map (fun q =>
            [{ joint_index := p.1, mimicked_joint_index := leader, multiplier := q }])) joints.enum).map
    List.flatten

/-- Boolean hardware parameter (`it->second == "true" || it->second == "True"`,
absent means false). -/
def boolParam (ps : List (String × String)) (k : String) : Bool :=
  match lookupParam ps k with
  | some v => v = "true" ∨ v = "True"
  | none => false

/-- The following-offset parameter processing of `GenericSystem::configure`
(`generic_system.cpp:63-76`): the offset (default 0) parsed from
`position_state_following_offset`, together with the custom interface name
(default "") read only when the offset parameter is present; `none` is the
`std::stod` parse failure. -/
def offsetParams (info : HardwareInfo) : Option (ℚ × String) :=
  match lookupParam info.hardware_parameters "position_state_following_offset" with
  | none => some (0, "")
  | some ostr =>
    (stod ostr).map (fun q =>
      (q, (lookupParam info.hardware_parameters
        "custom_interface_with_following_offset").getD ""))

/-- One call of `GenericSystem::configure` (`generic_system.cpp:32-218`),
parameterised by the standard vocabulary of the header.  `configure_default`,
declared in the `hardware_interface` base class outside `src/`, is modelled
from the spec as storing the resource description and succeeding.  `none`
models every configuration failure (a dangling mimic reference or a
non-numeric value handed to `std::stod`). -/
def configure (standard : List String) (info : HardwareInfo) : Option GenericSystem :=
  -- flags (lines 39-61)
  let fakeSensor := boolParam info.hardware_parameters "fake_sensor_commands"
  let disabled := boolParam info.hardware_parameters "disable_commands"
  -- following-offset parameters (lines 63-78)
  match offsetParams info with
  | none => none
  | some (offset, custom) =>
    -- standard-interface storage (lines 80-103)
    match initStates info.joints standard with
    | none => none
    | some js0 =>
      let jc0 := initCommands info.joints standard
      -- set all state values without initial values to 0 (lines 83-93)
      let js := js0.map (fun row => row.map (fun v => some (v.getD 0)))
      -- memory position vector (lines 95-97)
      let oldRow := jc0.getD POS_IDX []
      -- joint velocity commands to zero (lines 99-103)
      let jc := jc0.set VEL_IDX ((jc0.getD VEL_IDX []).map (fun _ => some (0 : ℚ)))
      -- mimic scan (lines 105-132)
      match scanMimics info.joints with
      | none => none
      | some mimics =>
        -- other-interface discovery and storage (lines 133-168)
        let others := discoverOther standard info.joints
        match initStates info.joints others with
        | none => none
        | some os =>
          let oc := initCommands info.joints others
          -- custom-offset interface index (lines 170-191); not found is only a warning
          let customIdx :=
            if custom = "" then none
            else others.findIdx? (fun ifc => ifc = custom)
          -- sensor discovery and storage (lines 193-205); the C++ sizes the
          -- sensor matrices by info_.joints and reads joint parameters
          let sensors := discoverSensor info.sensors
          match initStates info.joints sensors with
          | none => none
          | some ss =>
            let sc := initCommands info.joints sensors
            some {
              info := info
              standard_interfaces := standard
              other_interfaces := others
              sensor_interfaces := sensors
              joint_commands := jc
              joint_states := js
              joint_pos_commands_old := oldRow
              other_commands := oc
              other_states := os
              sensor_fake_commands := sc
              sensor_states := ss
              mimic_joints := mimics
              fake_sensor_command_interfaces := fakeSensor
              command_propagation_disabled := disabled
              position_state_following_offset := offset
              custom_interface_with_following_offset := custom
              index_custom_interface_with_following_offset := customIdx
              position_controller_running := false
              velocity_controller_running := false
              start_modes := ["position", "position", "position", "position", "position",
                "position"]
              stop_modes := [StoppingInterface.NONE, StoppingInterface.NONE,
                StoppingInterface.NONE, StoppingInterface.NONE, StoppingInterface.NONE,
                StoppingInterface.NONE] }

/-- The start-mode collection loop of `prepare_command_mode_switch`
(`generic_system.cpp:323-338`): for every requested key, for every joint, push
"position" when the key is `<joint>/position` and "velocity" when it is
`<joint>/velocity`. -/
def startModesOf (joints : List ComponentInfo) (keys : List String) : List String :=
  keys.flatMap (fun key => joints.flatMap (fun jt =>
    (if key = jt.name ++ "/position" then ["position"] else []) ++
      (if key = jt.name ++ "/velocity" then ["velocity"] else [])))

/-- The stop-mode collection loop of `prepare_command_mode_switch`
(`generic_system.cpp:353-368`), pushing `StoppingInterface` values. -/
def stopModesOf (joints : List ComponentInfo) (keys : List String) : List StoppingInterface :=
  keys.flatMap (fun key => joints.flatMap (fun jt =>
    (if key = jt.name ++ "/position" then [StoppingInterface.STOP_POSITION] else []) ++
      (if key = jt.name ++ "/velocity" then [StoppingInterface.STOP_VELOCITY] else [])))

/-- Model of `std::equal(l.begin() + 1, l.end(), l.begin())`: every element
equals its predecessor, hence all elements are equal. -/
def chainEq [DecidableEq α] : List α → Bool
  | a :: b :: t => decide (b = a) && chainEq (b :: t)
  | _ => true

/-- One call of `GenericSystem::prepare_command_mode_switch`
(`generic_system.cpp:314-379`): rebuilds the `start_modes_` / `stop_modes_`
scratch lists and validates them; an incomplete start set, a mixed start set,
or an incomplete or mixed stop set yields `ERROR`.  No other member is
touched. -/
def prepare_command_mode_switch (s : GenericSystem)
    (start_interfaces stop_interfaces : List String) : GenericSystem × ReturnType :=
  let sm := startModesOf s.info.joints start_interfaces
  let tm := stopModesOf s.info.joints stop_interfaces
  let bad : Prop :=
    (sm ≠ [] ∧ sm.length ≠ s.info.joints.length) ∨
      (sm ≠ [] ∧ chainEq sm = false) ∨
      (tm ≠ [] ∧ (tm.length ≠ s.info.joints.length ∨ chainEq tm = false))
  ({ s with start_modes := sm, stop_modes := tm },
    if bad then ReturnType.ERROR else ReturnType.OK)

/-- One call of `GenericSystem::perform_command_mode_switch`
(`generic_system.cpp:381-413`): deactivate both modes; when the validated
start modes contain "position", seed every position command from the position
state and activate position mode; otherwise when they contain "velocity",
zero every velocity command and activate velocity mode; always `OK`. -/
def perform_command_mode_switch (s : GenericSystem) : GenericSystem × ReturnType :=
  let s1 := { s with position_controller_running := false, velocity_controller_running := false }
  if s.start_modes ≠ [] ∧ "position" ∈ s.start_modes then
    ({ s1 with
        joint_commands := s1.joint_commands.set POS_IDX
          ((s1.joint_commands.getD POS_IDX []).mapIdx (fun i _ =>
            getCell s1.joint_states POS_IDX i))
        position_controller_running := true }, ReturnType.OK)
  else if s.start_modes ≠ [] ∧ "velocity" ∈ s.start_modes then
    ({ s1 with
        joint_commands := s1.joint_commands.set VEL_IDX
          ((s1.joint_commands.getD VEL_IDX []).map (fun _ => some (0 : ℚ)))
        velocity_controller_running := true }, ReturnType.OK)
  else (s1, ReturnType.OK)

/-- Protocol state of `ControllerManager::RTControllerListWrapper`
(`controller_manager.hpp:179-238`).  The header declares the two controller
lists, `updated_controllers_index_` (initially 0) and
`used_by_realtime_controllers_index_` (initially -1, modelled as `none`).
`writer_view` is modelled from the spec: the method bodies are not under
`src/`, and per the header documentation `get_unused_list` hands the
non-real-time thread a mutable reference it may edit until
`switch_updated_list` is called; `writer_view` records which generation that
outstanding reference designates (`none` when no write view is out). -/
structure RTListState where
  updated_controllers_index : Fin 2
  used_by_realtime_controllers_index : Option (Fin 2)
  writer_view : Option (Fin 2)
deriving DecidableEq

/-- Mirror of `RTControllerListWrapper::get_other_list`: the generation not
pointed at by the given index. -/
def otherList (i : Fin 2) : Fin 2 :=
  if i = 0 then 1 else 0

/-- Initial wrapper state from the header's member initialisers:
`updated_controllers_index_ = 0`, `used_by_realtime_controllers_index_ = -1`,
no outstanding write view. -/
def rtListInit : RTListState :=
  { updated_controllers_index := 0
    used_by_realtime_controllers_index := none
    writer_view := none }

/-- Modelled from the spec (§4.5; the method bodies of
`RTControllerListWrapper` are not under `src/`): one interleaving step of the
real-time reader and the lock-holding writer.
* `reader_acquire` — `update_and_get_used_by_rt_list`: the real-time thread
  makes the "updated" list the "used by rt" list and reads it.
* `writer_acquire` — `get_unused_list`: holding the structural lock and with
  no write view already out, the writer busy-waits until the list that is not
  "updated" is also not "used by rt", then takes it as its write view.
* `writer_publish` — `switch_updated_list`: the outstanding write view
  becomes the "updated" list and the write view is released. -/
inductive RTListStep : RTListState → RTListState → Prop
  | reader_acquire (s : RTListState) :
      RTListStep s { s with
        used_by_realtime_controllers_index := some s.updated_controllers_index }
  | writer_acquire (s : RTListState)
      (hfree : s.writer_view = none)
      (hwait : s.used_by_realtime_controllers_index ≠
        some (otherList s.updated_controllers_index)) :
      RTListStep s { s with writer_view := some (otherList s.updated_controllers_index) }
  | writer_publish (s : RTListState) (i : Fin 2) (hview : s.writer_view = some i) :
      RTListStep s { s with updated_controllers_index := i, writer_view := none }

/-- States of the double buffer reachable from the initial state under any
interleaving of the reader and the writer. -/
inductive RTListReachable : RTListState → Prop
  | init : RTListReachable rtListInit
  | step {s t : RTListState} : RTListReachable s → RTListStep s t → RTListReachable t

/-! Concrete systems used as inputs of witnesses and counterexamples. -/

/-- A one-joint system in velocity mode: position state 1, velocity command 2. -/
def gsC1w : GenericSystem :=
  { info := ⟨[], [⟨"j1", [], ["velocity"], ["position", "velocity"]⟩], []⟩
    standard_interfaces := ["position", "velocity"]
    other_interfaces := []
    sensor_interfaces := []
    joint_commands := [[some 9], [some 2]]
    joint_states := [[some 1], [some 0]]
    joint_pos_commands_old := [some 9]
    other_commands := []
    other_states := []
    sensor_fake_commands := []
    sensor_states := []
    mimic_joints := []
    fake_sensor_command_interfaces := false
    command_propagation_disabled := false
    position_state_following_offset := 0
    custom_interface_with_following_offset := ""
    index_custom_interface_with_following_offset := none
    position_controller_running := false
    velocity_controller_running := true
    start_modes := []
    stop_modes := [] }

/-- A two-joint system in velocity mode where joint 0 mimics joint 1 with
multiplier 2: joint 0 also has velocity command 1 of its own. -/
def gsC1c : GenericSystem :=
  { gsC1w with
    info := ⟨[], [⟨"j0", [("mimic", "j1"), ("multiplier", "2")], ["velocity"],
        ["position", "velocity"]⟩,
      ⟨"j1", [], [], ["position", "velocity"]⟩], []⟩
    joint_commands := [[none, none], [some 1, none]]
    joint_states := [[some 0, some 5], [some 0, some 0]]
    joint_pos_commands_old := [none, none]
    mimic_joints := [⟨0, 1, 2⟩] }

/-- A one-joint system in position mode whose previous cycle left position
command 1 and previous position command 0, stepped with dt = 0: the state on
which the C++ `read` divides by a zero period. -/
def gsC2 : GenericSystem :=
  { gsC1w with
    info := ⟨[], [⟨"j1", [], ["position"], ["position", "velocity"]⟩], []⟩
    joint_commands := [[some 1], [some 0]]
    joint_states := [[some 0], [some 7]]
    joint_pos_commands_old := [some 0]
    position_controller_running := true
    velocity_controller_running := false }

/-- A one-joint system in position mode with an active following-offset
binding on the "other" interface row 0 (offset 5) and a pending other-interface
loopback command 77 that the binding overrides. -/
def gsC8w : GenericSystem :=
  { gsC1w with
    info := ⟨[], [⟨"j1", [], ["position", "foo"], ["position", "velocity", "foo"]⟩], []⟩
    other_interfaces := ["foo"]
    joint_commands := [[some 1], [some 0]]
    joint_states := [[some 0], [some 0]]
    joint_pos_commands_old := [some 1]
    other_commands := [[some 77]]
    other_states := [[some 0]]
    position_state_following_offset := 5
    custom_interface_with_following_offset := "foo"
    index_custom_interface_with_following_offset := some 0
    position_controller_running := true
    velocity_controller_running := false }

/-- A two-joint system in position mode where joint 0 mimics joint 1 with
multiplier 2 while joint 0 also has position command 1. -/
def gsC8c : GenericSystem :=
  { gsC1w with
    info := ⟨[], [⟨"j0", [("mimic", "j1"), ("multiplier", "2")], ["position"],
        ["position", "velocity"]⟩,
      ⟨"j1", [], [], ["position", "velocity"]⟩], []⟩
    joint_commands := [[some 1, none], [none, none]]
    joint_states := [[some 0, some 3], [some 0, some 0]]
    joint_pos_commands_old := [some 1, none]
    mimic_joints := [⟨0, 1, 2⟩]
    position_controller_running := true
    velocity_controller_running := false }

/-- Resource description with a mimic chain: j0 mimics j1 and j1 mimics j2,
with j1 carrying initial position 1. -/
def infoC4 : HardwareInfo :=
  ⟨[],
   [⟨"j0", [("mimic", "j1")], ["position"], ["position"]⟩,
    ⟨"j1", [("mimic", "j2"), ("initial_position", "1")], ["position"], ["position"]⟩,
    ⟨"j2", [], ["position"], ["position"]⟩], []⟩

/-- The configured system of `infoC4`. -/
def gsC4c : GenericSystem :=
  (configure standardInterfacesDefault infoC4).getD gsC1w

/-- A two-joint idle system where joint 0 mimics joint 1 with multiplier 3. -/
def gsC4w : GenericSystem :=
  { gsC1w with
    info := ⟨[], [⟨"j0", [("mimic", "j1"), ("multiplier", "3")], [],
        ["position", "velocity"]⟩,
      ⟨"j1", [], [], ["position", "velocity"]⟩], []⟩
    joint_commands := [[none, none], [none, none]]
    joint_states := [[some 4, some 2], [some 0, some 5]]
    joint_pos_commands_old := [none, none]
    mimic_joints := [⟨0, 1, 3⟩]
    velocity_controller_running := false }

/-- A two-joint system with command propagation administratively disabled and
no controller running, where joint 0 mimics joint 1 with multiplier 3 while
joint 0 has pending position and velocity commands of its own. -/
def gsC9w : GenericSystem :=
  { gsC4w with
    joint_commands := [[some 9, none], [some 8, none]]
    command_propagation_disabled := true }

/-- A three-joint chain (0 mimics 1, 1 mimics 2, multipliers 1) with
propagation disabled and no controller running; states 1, 1, 0 give a
counterexample to the universal mimic-tracking law. -/
def gsC9c : GenericSystem :=
  { gsC1w with
    info := ⟨[], [⟨"j0", [("mimic", "j1")], [], ["position"]⟩,
      ⟨"j1", [("mimic", "j2")], [], ["position"]⟩,
      ⟨"j2", [], [], ["position"]⟩], []⟩
    joint_commands := [[none, none, none], [none, none, none]]
    joint_states := [[some 1, some 1, some 0], [some 0, some 0, some 0]]
    joint_pos_commands_old := [none, none, none]
    mimic_joints := [⟨0, 1, 1⟩, ⟨1, 2, 1⟩]
    command_propagation_disabled := true
    velocity_controller_running := false }

/-- A one-joint system whose validated start modes request position control,
with position state 1 and stale position command 9. -/
def gsC7w : GenericSystem :=
  { gsC1w with
    start_modes := ["position"]
    joint_states := [[some 1], [some 0]]
    joint_commands := [[some 9], [some 2]]
    velocity_controller_running := true }

/-- The wrapper state after the writer acquires its first write view from the
initial state: generation 0 published, reader idle, write view on generation 1. -/
def rtListAfterAcquire : RTListState :=
  { updated_controllers_index := 0
    used_by_realtime_controllers_index := none
    writer_view := some 1 }

/-- Resource description that names a following-offset custom interface
"foo" which no joint declares. -/
def info10 : HardwareInfo :=
  ⟨[("position_state_following_offset", "1.5"),
    ("custom_interface_with_following_offset", "foo")],
   [⟨"j1", [], ["position"], ["position"]⟩], []⟩

/-- The configured system of `info10`. -/
def gsC10 : GenericSystem :=
  (configure standardInterfacesDefault info10).getD gsC1w

/-- Resource description with one joint declaring only the "position"
command and state interface and no initial values. -/
def info5 : HardwareInfo :=
  ⟨[], [⟨"j1", [], ["position"], ["position"]⟩], []⟩

/-- The configured system of `info5`. -/
def gsC5 : GenericSystem :=
  (configure standardInterfacesDefault info5).getD gsC1w

/-- The common shape of the two mode-collection loops of
`prepare_command_mode_switch`: for every key and every joint, push `P` when
the key is `<joint>/position` and `V` when it is `<joint>/velocity`.
`startModesOf` and `stopModesOf` are definitionally instances of it. -/
def modePushes (P V : α) (joints : List ComponentInfo) (keys : List String) : List α :=
  keys.flatMap (fun key => joints.flatMap (fun jt =>
    (if key = jt.name ++ "/position" then [P] else []) ++
      (if key = jt.name ++ "/velocity" then [V] else [])))

/-- A joint is named by a key set when some key is its position or velocity
command interface name. -/
def matchedBy (keys : List String) (jt : ComponentInfo) : Prop :=
  ∃ k ∈ keys, k = jt.name ++ "/position" ∨ k = jt.name ++ "/velocity"

instance (keys : List String) (jt : ComponentInfo) : Decidable (matchedBy keys jt) := by
  unfold matchedBy
  infer_instance

/-- A two-joint system for exercising the mode-switch gate. -/
def gsC6 : GenericSystem :=
  { gsC1w with
    info := ⟨[], [⟨"j1", [], ["position", "velocity"], ["position", "velocity"]⟩,
      ⟨"j2", [], ["position", "velocity"], ["position", "velocity"]⟩], []⟩
    joint_commands := [[none, none], [some 0, some 0]]
    joint_states := [[some 1, some 2], [some 0, some 0]]
    joint_pos_commands_old := [none, none]
    velocity_controller_running := false }

/-! Generic list lemmas used to reason about the storage matrices. -/

lemma getD_mapIdx (f : ℕ → α → β) (l : List α) (j : ℕ) (hj : j < l.length) (d : α) (d' : β) :
    (l.mapIdx f).getD j d' = f j (l.getD j d) := by
  induction l generalizing f j with
  | nil => simp at hj
  | cons a t ih =>
    cases j with
    | zero => simp [List.mapIdx_cons]
    | succ k =>
      simp only [List.mapIdx_cons, List.getD_cons_succ]
      exact ih _ _ (by simpa using hj) 

lemma mapIdx_eq_self (f : ℕ → α → α) (l : List α) (hf : ∀ i a, f i a = a) : l.mapIdx f = l := by
  induction l generalizing f with
  | nil => simp
  | cons a t ih => simp [List.mapIdx_cons, hf, ih]

lemma set_getD_self (l : List α) (i : ℕ) (d : α) : l.set i (l.getD i d) = l := by
  induction l generalizing i with
  | nil => simp
  | cons a t ih =>
    cases i with
    | zero => simp
    | succ n => simp only [List.set_cons_succ, List.getD_cons_succ, ih]

lemma getD_set_self (l : List α) (i : ℕ) (a d : α) (h : i < l.length) :
    (l.set i a).getD i d = a := by
  rw [List.getD_eq_getElem?_getD, List.getElem?_set_self (by simpa using h)]
  rfl

lemma getD_set_ne (l : List α) {i j : ℕ} (h : i ≠ j) (a d : α) :
    (l.set i a).getD j d = l.getD j d := by
  rw [List.getD_eq_getElem?_getD, List.getD_eq_getElem?_getD, List.getElem?_set_ne h]

lemma getD_map_of_lt (f : α → β) (l : List α) (i : ℕ) (h : i < l.length) (d : α) (d' : β) :
    (l.map f).getD i d' = f (l.getD i d) := by
  induction l generalizing i with
  | nil => simp at h
  | cons a t ih =>
    cases i with
    | zero => simp
    | succ k => simpa using ih _ (by simpa using h)

lemma getD_of_length_le (l : List α) {i : ℕ} (h : l.length ≤ i) (d : α) : l.getD i d = d := by
  rw [List.getD_eq_getElem?_getD, List.getElem?_eq_none (by simpa using h)]
  rfl

lemma getCell_isSome_lt {m : List (List Val)} {i j : ℕ} (h : (getCell m i j).isSome = true) :
    i < m.length ∧ j < (m.getD i []).length := by
  unfold getCell at h
  constructor
  · by_contra hc
    push_neg at hc
    rw [getD_of_length_le m hc] at h
    simp [List.getD] at h
  · by_contra hc
    push_neg at hc
    rw [getD_of_length_le _ hc] at h
    simp at h

/-! Lemmas about the mimic overwrite fold of phase 5. -/

lemma applyMimicRow_length (m : MimicJoint) (row : List Val) :
    (applyMimicRow m row).length = row.length := by
  simp [applyMimicRow]

lemma foldl_applyMimic_eq_map (L : List MimicJoint) (states : List (List Val)) :
    L.foldl (fun st m => applyMimic m st) states
      = states.map (fun r => L.foldl (fun r m => applyMimicRow m r) r) := by
  induction L generalizing states with
  | nil => simp
  | cons a t ih =>
    simp only [List.foldl_cons]
    rw [ih, applyMimic, List.map_map]
    rfl

lemma rowFold_length (L : List MimicJoint) (r : List Val) :
    (L.foldl (fun r m => applyMimicRow m r) r).length = r.length := by
  induction L generalizing r with
  | nil => rfl
  | cons a t ih => simp [List.foldl_cons, ih, applyMimicRow_length]

lemma rowFold_getD_ne (L : List MimicJoint) (r : List Val) (k : ℕ)
    (h : ∀ m ∈ L, m.joint_index ≠ k) :
    (L.foldl (fun r m => applyMimicRow m r) r).getD k none = r.getD k none := by
  induction L generalizing r with
  | nil => rfl
  | cons a t ih =>
    simp only [List.foldl_cons]
    rw [ih _ (fun m hm => h m (List.mem_cons_of_mem a hm)), applyMimicRow,
      getD_set_ne _ (h a (List.mem_cons_self a t))]

lemma rowFold_follower (L : List MimicJoint) (m : MimicJoint) (r : List Val)
    (hm : m ∈ L)
    (hld : ∀ mj ∈ L, mj.joint_index ≠ m.mimicked_joint_index)
    (huniq : L.Pairwise (fun a b => a.joint_index ≠ b.joint_index))
    (hlen : m.joint_index < r.length) :
    (L.foldl (fun r m => applyMimicRow m r) r).getD m.joint_index none
      = vMul (some m.multiplier)
        ((L.foldl (fun r m => applyMimicRow m r) r).getD m.mimicked_joint_index none) := by
  induction L generalizing r with
  | nil => cases hm
  | cons a t ih =>
    have hldt : ∀ mj ∈ t, mj.joint_index ≠ m.mimicked_joint_index :=
      fun mj hmj => hld mj (List.mem_cons_of_mem a hmj)
    rcases List.mem_cons.mp hm with hma | hmt
    · subst hma
      simp only [List.foldl_cons]
      have hfoll : ∀ mj ∈ t, mj.joint_index ≠ m.joint_index := by
        intro mj hmj
        exact ((List.pairwise_cons.mp huniq).1 mj hmj).symm
      rw [rowFold_getD_ne t _ _ hfoll, rowFold_getD_ne t _ _ hldt]
      rw [applyMimicRow, getD_set_self _ _ _ _ hlen,
        getD_set_ne _ (hld m (List.mem_cons_self m t))]
    · simp only [List.foldl_cons]
      exact ih _ hmt hldt (List.pairwise_cons.mp huniq).2
        (by simpa [applyMimicRow_length] using hlen)

lemma getD_foldl_applyMimic (L : List MimicJoint) (states : List (List Val)) (i : ℕ)
    (h : i < states.length) :
    (L.foldl (fun st m => applyMimic m st) states).getD i []
      = L.foldl (fun r m => applyMimicRow m r) (states.getD i []) := by
  rw [foldl_applyMimic_eq_map, getD_map_of_lt _ _ _ h []]

lemma getCell_foldl_applyMimic_ne (L : List MimicJoint) (states : List (List Val)) (j : ℕ)
    (h : ∀ m ∈ L, m.joint_index ≠ j) (i : ℕ) :
    getCell (L.foldl (fun st m => applyMimic m st) states) i j = getCell states i j := by
  unfold getCell
  by_cases hi : i < states.length
  · rw [getD_foldl_applyMimic _ _ _ hi, rowFold_getD_ne _ _ _ h]
  · push_neg at hi
    have h1 : (states.map (fun r => L.foldl (fun r m => applyMimicRow m r) r)).length ≤ i := by
      simpa using hi
    rw [foldl_applyMimic_eq_map, getD_of_length_le _ h1, getD_of_length_le _ hi]

/-! Lemmas characterizing the propagation phases of `read`. -/

lemma posUpdateActive_not (s : GenericSystem) (j : ℕ)
    (h : s.position_controller_running = false) : ¬ posUpdateActive s j := by
  intro hc
  have h2 := hc.2.2
  rw [h] at h2
  exact Bool.false_ne_true h2

lemma velUpdateActive_not (s : GenericSystem) (j : ℕ)
    (h : s.velocity_controller_running = false) : ¬ velUpdateActive s j := by
  intro hc
  have h2 := hc.2.2
  rw [h] at h2
  exact Bool.false_ne_true h2

lemma readPhase1_of_pos_off (dt : ℚ) (s : GenericSystem)
    (h : s.position_controller_running = false) : readPhase1 dt s = s.joint_states := by
  simp only [readPhase1]
  rw [mapIdx_eq_self _ _ (fun i a => if_neg (posUpdateActive_not s i h)),
    mapIdx_eq_self _ _ (fun i a => if_neg (posUpdateActive_not s i h)),
    ite_self, set_getD_self, set_getD_self]

lemma readPhase2_of_vel_off (dt : ℚ) (s : GenericSystem)
    (h : s.velocity_controller_running = false) : readPhase2 dt s = readPhase1 dt s := by
  simp only [readPhase2]
  rw [mapIdx_eq_self _ _ (fun i a => if_neg (velUpdateActive_not s i h)),
    mapIdx_eq_self _ _ (fun i a => if_neg (velUpdateActive_not s i h)),
    set_getD_self, set_getD_self]

lemma readCommands_of_vel_off (dt : ℚ) (s : GenericSystem)
    (h : s.velocity_controller_running = false) : readCommands dt s = s.joint_commands := by
  simp only [readCommands]
  rw [mapIdx_eq_self _ _ (fun i a => if_neg (velUpdateActive_not s i h)), set_getD_self]

lemma readPhase1_length (dt : ℚ) (s : GenericSystem) :
    (readPhase1 dt s).length = s.joint_states.length := by
  simp only [readPhase1]
  simp

lemma readPhase2_length (dt : ℚ) (s : GenericSystem) :
    (readPhase2 dt s).length = s.joint_states.length := by
  simp only [readPhase2]
  simp [readPhase1_length]

lemma readPhase4_length (dt : ℚ) (s : GenericSystem) :
    (readPhase4 dt s).length = s.joint_states.length := by
  simp only [readPhase4]
  simp [readPhase2_length]

lemma getCell_readPhase4_lt2 (dt : ℚ) (s : GenericSystem) {i : ℕ} (hi : i < 2)
    (hlen : i < s.joint_states.length) (j : ℕ) :
    getCell (readPhase4 dt s) i j = getCell (readPhase2 dt s) i j := by
  simp only [readPhase4, getCell]
  rw [getD_mapIdx _ _ _ (by rw [readPhase2_length]; exact hlen) []]
  rw [if_neg (by omega)]

lemma velScenario (dt : ℚ) (s : GenericSystem) (j : ℕ) (v p : ℚ)
    (hpr : s.position_controller_running = false)
    (hvr : s.velocity_controller_running = true)
    (hd : s.command_propagation_disabled = false)
    (hcmd : getCell s.joint_commands VEL_IDX j = some v)
    (hpos : getCell s.joint_states POS_IDX j = some p)
    (h2 : 2 ≤ s.joint_states.length)
    (hj0 : j < (s.joint_states.getD POS_IDX []).length)
    (hj1 : j < (s.joint_states.getD VEL_IDX []).length)
    (hjc : j < (s.joint_commands.getD POS_IDX []).length) :
    getCell (readPhase2 dt s) POS_IDX j = some (p + v * dt) ∧
      getCell (readPhase2 dt s) VEL_IDX j = some v ∧
      getCell (readCommands dt s) POS_IDX j = some (p + v * dt) := by
  have hact : velUpdateActive s j := ⟨by rw [hcmd]; rfl, hd, hvr⟩
  have h1 : readPhase1 dt s = s.joint_states := readPhase1_of_pos_off dt s hpr
  have hcl : POS_IDX < s.joint_commands.length := by
    have := (getCell_isSome_lt (by rw [hcmd]; rfl)).1
    simp only [POS_IDX, VEL_IDX] at this ⊢
    omega
  have hP : getCell (readPhase2 dt s) POS_IDX j = some (p + v * dt) := by
    simp only [readPhase2, getCell, POS_IDX, VEL_IDX] at hpos ⊢
    rw [h1, getD_set_ne _ (by omega : (1 : ℕ) ≠ 0), getD_set_self _ _ _ _ (by omega),
      getD_mapIdx _ _ _ (by simpa [POS_IDX] using hj0) none, if_pos hact]
    simp only [getCell, POS_IDX, VEL_IDX] at hcmd
    rw [hpos, hcmd]
    rfl
  refine ⟨hP, ?_, ?_⟩
  · simp only [readPhase2, getCell, POS_IDX, VEL_IDX]
    rw [h1, getD_set_self _ _ _ _ (by simp; omega),
      getD_mapIdx _ _ _ (by simpa [VEL_IDX] using hj1) none, if_pos hact]
    simpa [getCell, VEL_IDX] using hcmd
  · simp only [readCommands, getCell, POS_IDX]
    rw [getD_set_self _ _ _ _ (by simpa [POS_IDX] using hcl),
      getD_mapIdx _ _ _ (by simpa [POS_IDX] using hjc) none, if_pos hact]
    simpa [getCell, POS_IDX] using hP

lemma posScenario (dt : ℚ) (s : GenericSystem) (j : ℕ) (c : ℚ)
    (hpr : s.position_controller_running = true)
    (hvr : s.velocity_controller_running = false)
    (hd : s.command_propagation_disabled = false)
    (hcmd : getCell s.joint_commands POS_IDX j = some c)
    (h0 : 0 < s.joint_states.length)
    (hj0 : j < (s.joint_states.getD POS_IDX []).length) :
    getCell (readPhase2 dt s) POS_IDX j
        = some (c + (if s.custom_interface_with_following_offset = "" then
          s.position_state_following_offset else 0)) ∧
      readCommands dt s = s.joint_commands := by
  have hact : posUpdateActive s j := ⟨by rw [hcmd]; rfl, hd, hpr⟩
  refine ⟨?_, readCommands_of_vel_off dt s hvr⟩
  rw [readPhase2_of_vel_off dt s hvr]
  simp only [readPhase1, getCell, POS_IDX, VEL_IDX]
  rw [getD_set_ne _ (by omega : (1 : ℕ) ≠ 0), getD_set_self _ _ _ _ (by simpa [POS_IDX] using h0),
    getD_mapIdx _ _ _ (by simpa [POS_IDX] using hj0) none, if_pos hact]
  simp only [getCell, POS_IDX] at hcmd
  rw [hcmd]
  rfl

/-! Claim theorems. -/

/-- C1 (amended): for every joint with velocity control active (velocity
controller running, position controller not running, command propagation not
disabled) that is not the follower of any configured mimic relation, whose
velocity command `v` is not the unset sentinel and whose position state holds
a value `p`, one simulation step with elapsed time `dt > 0` yields new
position state `p + v * dt` exactly, new velocity state `v`, and
resynchronizes the position command to equal the new position state. -/
theorem C1_velocity_step (dt : ℚ) (s : GenericSystem) (j : ℕ) (v p : ℚ)
    (hdt : 0 < dt)
    (hvr : s.velocity_controller_running = true)
    (hpr : s.position_controller_running = false)
    (hd : s.command_propagation_disabled = false)
    (hcmd : getCell s.joint_commands VEL_IDX j = some v)
    (hpos : getCell s.joint_states POS_IDX j = some p)
    (hmim : ∀ m ∈ s.mimic_joints, m.joint_index ≠ j)
    (h2 : 2 ≤ s.joint_states.length)
    (hj0 : j < (s.joint_states.getD POS_IDX []).length)
    (hj1 : j < (s.joint_states.getD VEL_IDX []).length)
    (hjc : j < (s.joint_commands.getD POS_IDX []).length) :
    getCell (read dt s).joint_states POS_IDX j = some (p + v * dt) ∧
      getCell (read dt s).joint_states VEL_IDX j = some v ∧
      getCell (read dt s).joint_commands POS_IDX j
        = getCell (read dt s).joint_states POS_IDX j := by
  obtain ⟨hP, hV, hC⟩ := velScenario dt s j v p hpr hvr hd hcmd hpos h2 hj0 hj1 hjc
  have hjs : (read dt s).joint_states = readJointStates dt s := rfl
  have hjc2 : (read dt s).joint_commands = readCommands dt s := rfl
  have hpos4 : getCell (readPhase4 dt s) POS_IDX j = some (p + v * dt) := by
    rw [getCell_readPhase4_lt2 dt s (by simp [POS_IDX]) (by simp only [POS_IDX]; omega) j]
    exact hP
  have hvel4 : getCell (readPhase4 dt s) VEL_IDX j = some v := by
    rw [getCell_readPhase4_lt2 dt s (by simp [VEL_IDX]) (by simp only [VEL_IDX]; omega) j]
    exact hV
  have hfold := getCell_foldl_applyMimic_ne s.mimic_joints (readPhase4 dt s) j hmim
  constructor
  · rw [hjs]
    unfold readJointStates
    rw [hfold POS_IDX]
    exact hpos4
  constructor
  · rw [hjs]
    unfold readJointStates
    rw [hfold VEL_IDX]
    exact hvel4
  · rw [hjs, hjc2]
    unfold readJointStates
    rw [hfold POS_IDX, hpos4]
    exact hC

/-- C1 witness: the one-joint velocity-mode system with position state 1 and
velocity command 2 stepped by dt = 1 reaches position 3, velocity 2, and the
position command is resynchronized. -/
theorem C1_velocity_step_witness :
    getCell (read 1 gsC1w).joint_states POS_IDX 0 = some (1 + 2 * 1) ∧
      getCell (read 1 gsC1w).joint_states VEL_IDX 0 = some 2 ∧
      getCell (read 1 gsC1w).joint_commands POS_IDX 0
        = getCell (read 1 gsC1w).joint_states POS_IDX 0 :=
  C1_velocity_step 1 gsC1w 0 2 1 (by decide) rfl rfl rfl (by decide) (by decide)
    (by decide) (by decide) (by decide) (by decide) (by decide)

/-- C1 counterexample: in `gsC1c` every premise of the claim holds for joint 0
(velocity controller running, propagation enabled, velocity command 1, dt = 1
> 0, old position state 0), yet after one step the position state is not
0 + 1 * 1 and the velocity state is not 1, because the mimic overwrite of
joint 0 from joint 1 is applied after the velocity branch. -/
theorem C1_counterexample :
    gsC1c.velocity_controller_running = true ∧
      gsC1c.position_controller_running = false ∧
      gsC1c.command_propagation_disabled = false ∧
      getCell gsC1c.joint_commands VEL_IDX 0 = some 1 ∧
      getCell gsC1c.joint_states POS_IDX 0 = some 0 ∧
      (0 : ℚ) < 1 ∧
      getCell (read 1 gsC1c).joint_states POS_IDX 0 ≠ some (0 + 1 * 1) ∧
      getCell (read 1 gsC1c).joint_states VEL_IDX 0 ≠ some 1 := by
  decide

/-- C2 (code refutation): at `gsC2` all conditions of the position branch hold
(position command 1 set, propagation enabled, position controller running, a
velocity row exists) while the elapsed time is dt = 0, and the step still
executes the velocity derivation: the velocity state, previously 7, is
overwritten with the non-finite result of (1 - 0) / 0 instead of being left
untouched.  `GenericSystem::read` has no guard at all on `period_`. -/
theorem C2_division_by_zero_dt_executed :
    gsC2.position_controller_running = true ∧
      gsC2.command_propagation_disabled = false ∧
      getCell gsC2.joint_commands POS_IDX 0 = some 1 ∧
      gsC2.joint_pos_commands_old.getD 0 none = some 0 ∧
      1 < gsC2.standard_interfaces.length ∧
      getCell gsC2.joint_states VEL_IDX 0 = some 7 ∧
      getCell (read 0 gsC2).joint_states VEL_IDX 0
        = vDiv (vSub (some 1) (some 0)) (some 0) ∧
      getCell (read 0 gsC2).joint_states VEL_IDX 0 ≠ getCell gsC2.joint_states VEL_IDX 0 := by
  decide

/-- C8 (amended): for every position-controlled joint (position controller
running, velocity controller not running, command propagation enabled) that
is not the follower of any mimic relation and whose position command is a
value `c`, the step sets new position state = `c` plus the following offset,
the offset being replaced by zero whenever a custom offset interface name is
configured; and when the following-offset binding is active on "other"
interface row `i`, that row's state becomes `c` + offset instead of its
ordinary loopback. -/
theorem C8_position_step (dt : ℚ) (s : GenericSystem) (j : ℕ) (c : ℚ)
    (hpr : s.position_controller_running = true)
    (hvr : s.velocity_controller_running = false)
    (hd : s.command_propagation_disabled = false)
    (hcmd : getCell s.joint_commands POS_IDX j = some c)
    (hmim : ∀ m ∈ s.mimic_joints, m.joint_index ≠ j)
    (h2 : 2 ≤ s.joint_states.length)
    (hj0 : j < (s.joint_states.getD POS_IDX []).length) :
    getCell (read dt s).joint_states POS_IDX j
        = some (c + (if s.custom_interface_with_following_offset = "" then
          s.position_state_following_offset else 0)) ∧
      (∀ i, s.index_custom_interface_with_following_offset = some i →
        i < s.other_states.length → j < (s.other_states.getD i []).length →
        getCell (read dt s).other_states i j
          = some (c + s.position_state_following_offset)) := by
  obtain ⟨hP, hC⟩ := posScenario dt s j c hpr hvr hd hcmd (by omega) hj0
  constructor
  · have hjs : (read dt s).joint_states = readJointStates dt s := rfl
    rw [hjs]
    unfold readJointStates
    rw [getCell_foldl_applyMimic_ne s.mimic_joints (readPhase4 dt s) j hmim POS_IDX,
      getCell_readPhase4_lt2 dt s (by simp [POS_IDX]) (by simp only [POS_IDX]; omega) j]
    exact hP
  · intro i hidx hio hjo
    have hos : (read dt s).other_states = readOtherStates dt s := rfl
    rw [hos]
    simp only [readOtherStates, getCell, hC]
    rw [getD_mapIdx _ _ _ hio [], getD_mapIdx _ _ _ hjo none,
      if_pos ⟨hidx, by simp only [getCell, POS_IDX] at hcmd ⊢; rw [hcmd]; rfl⟩]
    simp only [getCell, POS_IDX] at hcmd ⊢
    rw [hcmd]
    rfl

/-- C8 witness: in `gsC8w` (offset 5 bound to "other" interface row 0, custom
name configured, position command 1) one step leaves position state 1 + 0 and
sets the bound other-interface state to 1 + 5 = 6, overriding its pending
loopback command 77. -/
theorem C8_position_step_witness :
    getCell (read 1 gsC8w).joint_states POS_IDX 0 = some (1 + 0) ∧
      getCell (read 1 gsC8w).other_states 0 0 = some (1 + 5) := by
  obtain ⟨h1, h2⟩ := C8_position_step 1 gsC8w 0 1 rfl rfl rfl (by decide) (by decide)
    (by decide) (by decide)
  refine ⟨by simpa using h1, ?_⟩
  simpa using h2 0 rfl (by decide) (by decide)

/-- C8 counterexample: in `gsC8c` every premise of the claim holds for joint 0
(position controller running, propagation enabled, position command 1, no
custom binding, offset 0), yet after one step the position state is not
1 + 0, because the mimic overwrite of joint 0 from joint 1 (multiplier 2,
leader state 3) is applied after the position branch. -/
theorem C8_counterexample :
    gsC8c.position_controller_running = true ∧
      gsC8c.velocity_controller_running = false ∧
      gsC8c.command_propagation_disabled = false ∧
      getCell gsC8c.joint_commands POS_IDX 0 = some 1 ∧
      gsC8c.custom_interface_with_following_offset = "" ∧
      gsC8c.position_state_following_offset = 0 ∧
      getCell (read 1 gsC8c).joint_states POS_IDX 0 ≠ some (1 + 0) := by
  decide

lemma readPhase1_row_length (dt : ℚ) (s : GenericSystem)
    (h2 : 2 ≤ s.joint_states.length) (i : ℕ) :
    ((readPhase1 dt s).getD i []).length = (s.joint_states.getD i []).length := by
  simp only [readPhase1, POS_IDX, VEL_IDX]
  match i with
  | 0 =>
    rw [getD_set_ne _ (by omega), getD_set_self _ _ _ _ (by omega)]
    simp
  | 1 =>
    rw [getD_set_self _ _ _ _ (by simp only [List.length_set]; omega)]
    split <;> simp
  | (n + 2) =>
    rw [getD_set_ne _ (by omega), getD_set_ne _ (by omega)]

lemma readPhase2_row_length (dt : ℚ) (s : GenericSystem)
    (h2 : 2 ≤ s.joint_states.length) (i : ℕ) :
    ((readPhase2 dt s).getD i []).length = (s.joint_states.getD i []).length := by
  simp only [readPhase2, POS_IDX, VEL_IDX]
  match i with
  | 0 =>
    rw [getD_set_ne _ (by omega),
      getD_set_self _ _ _ _ (by rw [readPhase1_length]; omega)]
    simpa using readPhase1_row_length dt s h2 0
  | 1 =>
    rw [getD_set_self _ _ _ _ (by simp only [List.length_set]; rw [readPhase1_length]; omega)]
    simpa using readPhase1_row_length dt s h2 1
  | (n + 2) =>
    rw [getD_set_ne _ (by omega), getD_set_ne _ (by omega)]
    exact readPhase1_row_length dt s h2 (n + 2)

lemma readPhase4_row_length (dt : ℚ) (s : GenericSystem)
    (h2 : 2 ≤ s.joint_states.length) (i : ℕ) (hi : i < s.joint_states.length) :
    ((readPhase4 dt s).getD i []).length = (s.joint_states.getD i []).length := by
  simp only [readPhase4]
  rw [getD_mapIdx _ _ _ (by rw [readPhase2_length]; exact hi) []]
  have h := readPhase2_row_length dt s h2 i
  split
  · simpa using h
  · exact h

lemma readJointStates_length (dt : ℚ) (s : GenericSystem) :
    (readJointStates dt s).length = s.joint_states.length := by
  unfold readJointStates
  rw [foldl_applyMimic_eq_map]
  simp [readPhase4_length]

/-- C4 (amended): for every configured mimic relation whose leader is not
itself the follower of any mimic relation (and with the followers of the
relation list pairwise distinct, as configuration guarantees), after a
simulation step the follower's state in every interface row equals multiplier
times the leader's end-of-cycle state in that same row; the overwrite is
applied after the joint-state propagation of the cycle, so it reflects the
leader's freshly computed value. -/
theorem C4_mimic_law (dt : ℚ) (s : GenericSystem) (m : MimicJoint)
    (hm : m ∈ s.mimic_joints)
    (hld : ∀ mj ∈ s.mimic_joints, mj.joint_index ≠ m.mimicked_joint_index)
    (huniq : s.mimic_joints.Pairwise (fun a b => a.joint_index ≠ b.joint_index))
    (h2 : 2 ≤ s.joint_states.length)
    (hb : ∀ i, i < s.joint_states.length →
      m.joint_index < (s.joint_states.getD i []).length) :
    ∀ i, i < (read dt s).joint_states.length →
      getCell (read dt s).joint_states i m.joint_index
        = vMul (some m.multiplier)
          (getCell (read dt s).joint_states i m.mimicked_joint_index) := by
  intro i hi
  have hjs : (read dt s).joint_states = readJointStates dt s := rfl
  rw [hjs] at hi ⊢
  rw [readJointStates_length] at hi
  have hi4 : i < (readPhase4 dt s).length := by rw [readPhase4_length]; exact hi
  unfold readJointStates getCell
  rw [getD_foldl_applyMimic _ _ _ hi4]
  exact rowFold_follower s.mimic_joints m (readPhase4 dt s |>.getD i []) hm hld huniq
    (by rw [readPhase4_row_length dt s h2 i hi]; exact hb i hi)

/-- C4 witness: in the idle two-joint system `gsC4w` (joint 0 mimics joint 1,
multiplier 3), after one step the follower's cell equals 3 times the leader's
cell in the position row. -/
theorem C4_mimic_law_witness :
    getCell (read 1 gsC4w).joint_states 0 0
      = vMul (some 3) (getCell (read 1 gsC4w).joint_states 0 1) :=
  C4_mimic_law 1 gsC4w ⟨0, 1, 3⟩ (by decide) (by decide) (by decide) (by decide)
    (by decide) 0 (by decide)

/-- C4 counterexample: configuring `infoC4` builds the mimic chain
(0 mimics 1, 1 mimics 2, multipliers 1) with initial states 0, 1, 0; after one
step the follower 0 holds the leader 1's prior-cycle value 1, while the leader
1's current-cycle state is 0, so follower 0's state differs from multiplier
times the leader's current-cycle state. -/
theorem C4_counterexample :
    configure standardInterfacesDefault infoC4 = some gsC4c ∧
      gsC4c.mimic_joints = [⟨0, 1, 1⟩, ⟨1, 2, 1⟩] ∧
      getCell gsC4c.joint_states POS_IDX 1 = some 1 ∧
      getCell (read 1 gsC4c).joint_states POS_IDX 0 = some 1 ∧
      getCell (read 1 gsC4c).joint_states POS_IDX 1 = some 0 ∧
      getCell (read 1 gsC4c).joint_states POS_IDX 0
        ≠ vMul (some 1) (getCell (read 1 gsC4c).joint_states POS_IDX 1) := by
  decide

/-- C9 (amended): mimic coupling is applied on every simulation step even
when command propagation is administratively disabled and no position or
velocity controller is running: for every configured mimic relation whose
leader is not itself a follower (followers pairwise distinct), the follower's
state in every row equals multiplier times the leader's state after the step,
and the leader's position and velocity states are exactly its prior-cycle
ones, since every gated propagation branch was skipped. -/
theorem C9_mimic_unconditional (dt : ℚ) (s : GenericSystem) (m : MimicJoint)
    (hdis : s.command_propagation_disabled = true)
    (hpr : s.position_controller_running = false)
    (hvr : s.velocity_controller_running = false)
    (hm : m ∈ s.mimic_joints)
    (hld : ∀ mj ∈ s.mimic_joints, mj.joint_index ≠ m.mimicked_joint_index)
    (huniq : s.mimic_joints.Pairwise (fun a b => a.joint_index ≠ b.joint_index))
    (h2 : 2 ≤ s.joint_states.length)
    (hb : ∀ i, i < s.joint_states.length →
      m.joint_index < (s.joint_states.getD i []).length) :
    (∀ i, i < (read dt s).joint_states.length →
      getCell (read dt s).joint_states i m.joint_index
        = vMul (some m.multiplier)
          (getCell (read dt s).joint_states i m.mimicked_joint_index)) ∧
      (∀ i, i < 2 →
        getCell (read dt s).joint_states i m.mimicked_joint_index
          = getCell s.joint_states i m.mimicked_joint_index) := by
  constructor
  · intro i hi
    have hjs : (read dt s).joint_states = readJointStates dt s := rfl
    rw [hjs] at hi ⊢
    rw [readJointStates_length] at hi
    have hi4 : i < (readPhase4 dt s).length := by rw [readPhase4_length]; exact hi
    unfold readJointStates getCell
    rw [getD_foldl_applyMimic _ _ _ hi4]
    exact rowFold_follower s.mimic_joints m (readPhase4 dt s |>.getD i []) hm hld huniq
      (by rw [readPhase4_row_length dt s h2 i hi]; exact hb i hi)
  · intro i hi
    have hjs : (read dt s).joint_states = readJointStates dt s := rfl
    rw [hjs]
    unfold readJointStates
    rw [getCell_foldl_applyMimic_ne s.mimic_joints (readPhase4 dt s)
      m.mimicked_joint_index hld i]
    rw [getCell_readPhase4_lt2 dt s hi (by omega) m.mimicked_joint_index]
    rw [readPhase2_of_vel_off dt s hvr, readPhase1_of_pos_off dt s hpr]

/-- C9 witness: in `gsC9w` (propagation disabled, no controller running,
pending commands on joint 0, joint 0 mimics joint 1 with multiplier 3), after
one step the follower still tracks 3 times the leader, and the leader's
position state is untouched. -/
theorem C9_mimic_unconditional_witness :
    getCell (read 1 gsC9w).joint_states 0 0
        = vMul (some 3) (getCell (read 1 gsC9w).joint_states 0 1) ∧
      getCell (read 1 gsC9w).joint_states 0 1 = getCell gsC9w.joint_states 0 1 := by
  have h := C9_mimic_unconditional 1 gsC9w ⟨0, 1, 3⟩ rfl rfl rfl (by decide) (by decide)
    (by decide) (by decide) (by decide)
  exact ⟨h.1 0 (by decide), h.2 0 (by decide)⟩

/-- C9 counterexample: in the chain `gsC9c` (0 mimics 1 and 1 mimics 2, all
multipliers 1, propagation disabled, no controller running) every premise of
the claim holds for the relation 0-mimics-1, yet after the step follower 0
holds 1 while multiplier times leader 1's state is 0: with chained relations
the follower does not track its leader's own overwritten state. -/
theorem C9_counterexample :
    gsC9c.command_propagation_disabled = true ∧
      gsC9c.position_controller_running = false ∧
      gsC9c.velocity_controller_running = false ∧
      gsC9c.mimic_joints = [⟨0, 1, 1⟩, ⟨1, 2, 1⟩] ∧
      getCell (read 1 gsC9c).joint_states POS_IDX 0 = some 1 ∧
      getCell (read 1 gsC9c).joint_states POS_IDX 1 = some 0 ∧
      getCell (read 1 gsC9c).joint_states POS_IDX 0
        ≠ vMul (some 1) (getCell (read 1 gsC9c).joint_states POS_IDX 1) := by
  decide

/-- C7 (as claimed): every `perform_command_mode_switch` call first clears
both mode flags; when the validated start modes contain "position" it seeds
every position command from the current position state and activates only
position mode; otherwise when they contain "velocity" it zeroes every
velocity command and activates only velocity mode; otherwise both flags stay
cleared and the commands are untouched; and it always returns OK. -/
theorem C7_perform_switch (s : GenericSystem) :
    (perform_command_mode_switch s).2 = ReturnType.OK ∧
      (s.start_modes ≠ [] → "position" ∈ s.start_modes →
        (perform_command_mode_switch s).1.position_controller_running = true ∧
        (perform_command_mode_switch s).1.velocity_controller_running = false ∧
        ∀ j, j < (s.joint_commands.getD POS_IDX []).length →
          getCell (perform_command_mode_switch s).1.joint_commands POS_IDX j
            = getCell s.joint_states POS_IDX j) ∧
      (s.start_modes ≠ [] → "position" ∉ s.start_modes → "velocity" ∈ s.start_modes →
        (perform_command_mode_switch s).1.velocity_controller_running = true ∧
        (perform_command_mode_switch s).1.position_controller_running = false ∧
        ∀ j, j < (s.joint_commands.getD VEL_IDX []).length →
          getCell (perform_command_mode_switch s).1.joint_commands VEL_IDX j = some 0) ∧
      ((s.start_modes = [] ∨ ("position" ∉ s.start_modes ∧ "velocity" ∉ s.start_modes)) →
        (perform_command_mode_switch s).1.position_controller_running = false ∧
        (perform_command_mode_switch s).1.velocity_controller_running = false ∧
        (perform_command_mode_switch s).1.joint_commands = s.joint_commands) := by
  refine ⟨?_, ?_, ?_, ?_⟩
  · simp only [perform_command_mode_switch]
    split
    · rfl
    split <;> rfl
  · intro hne hmem
    simp only [perform_command_mode_switch, if_pos (And.intro hne hmem)]
    refine ⟨by trivial, by trivial, ?_⟩
    intro j hj
    by_cases hc : POS_IDX < s.joint_commands.length
    · simp only [getCell]
      rw [getD_set_self _ _ _ _ hc, getD_mapIdx _ _ _ hj none]
    · push_neg at hc
      rw [getD_of_length_le _ hc] at hj
      simp at hj
  · intro hne hnp hmv
    have hcond : ¬ (s.start_modes ≠ [] ∧ "position" ∈ s.start_modes) := by
      intro hc
      exact hnp hc.2
    simp only [perform_command_mode_switch, if_neg hcond, if_pos (And.intro hne hmv)]
    refine ⟨by trivial, by trivial, ?_⟩
    intro j hj
    by_cases hc : VEL_IDX < s.joint_commands.length
    · simp only [getCell]
      rw [getD_set_self _ _ _ _ hc, getD_map_of_lt _ _ _ hj none]
    · push_neg at hc
      rw [getD_of_length_le _ hc] at hj
      simp at hj
  · intro hcase
    have h1 : ¬ (s.start_modes ≠ [] ∧ "position" ∈ s.start_modes) := by
      rcases hcase with h | h
      · intro hc; exact hc.1 h
      · intro hc; exact h.1 hc.2
    have h2 : ¬ (s.start_modes ≠ [] ∧ "velocity" ∈ s.start_modes) := by
      rcases hcase with h | h
      · intro hc; exact hc.1 h
      · intro hc; exact h.2 hc.2
    simp only [perform_command_mode_switch, if_neg h1, if_neg h2]
    exact ⟨by trivial, by trivial, by trivial⟩

/-- C7 witness: performing the validated position switch on `gsC7w` activates
position mode only, seeds the position command from the state 1 and returns
OK. -/
theorem C7_perform_switch_witness :
    (perform_command_mode_switch gsC7w).2 = ReturnType.OK ∧
      (perform_command_mode_switch gsC7w).1.position_controller_running = true ∧
      (perform_command_mode_switch gsC7w).1.velocity_controller_running = false ∧
      getCell (perform_command_mode_switch gsC7w).1.joint_commands POS_IDX 0
        = getCell gsC7w.joint_states POS_IDX 0 := by
  have h := C7_perform_switch gsC7w
  have h2 := h.2.1 (by decide) (by decide)
  exact ⟨h.1, h2.1, h2.2.1, h2.2.2 0 (by decide)⟩

lemma otherList_ne (i : Fin 2) : otherList i ≠ i := by
  fin_cases i <;> decide

/-- C3 (as claimed, spec-modelled protocol): in every state of the double
buffer reachable under any interleaving of the real-time reader and the
lock-holding writer, an outstanding write view never designates the "updated"
generation nor the generation the reader most recently acquired and still
uses; hence the writer never mutates the reader's generation, and a reader
acquisition (which takes the "updated" generation) never observes the
generation being edited. -/
theorem C3_double_buffer_safety (s : RTListState) (hreach : RTListReachable s) :
    ∀ i : Fin 2, s.writer_view = some i →
      s.updated_controllers_index ≠ i ∧
        s.used_by_realtime_controllers_index ≠ some i := by
  induction hreach with
  | init => intro i hi; cases hi
  | step hr hstep ih =>
    intro i hi
    cases hstep with
    | reader_acquire =>
      obtain ⟨h1, h2⟩ := ih i hi
      refine ⟨h1, ?_⟩
      intro hc
      rw [Option.some_inj] at hc
      exact h1 hc
    | writer_acquire hfree hwait =>
      rw [show ∀ u : RTListState, ({ u with
          writer_view := some (otherList u.updated_controllers_index) }
            : RTListState).writer_view
          = some (otherList u.updated_controllers_index) from fun u => rfl,
        Option.some_inj] at hi
      subst hi
      exact ⟨fun hc => otherList_ne _ hc.symm, hwait⟩
    | writer_publish k hview =>
      cases hi

/-- C3 witness: after the writer acquires its view from the initial state the
invariant holds concretely: the view designates generation 1, which is
neither the updated generation 0 nor in use by the reader. -/
theorem C3_double_buffer_safety_witness :
    rtListAfterAcquire.updated_controllers_index ≠ 1 ∧
      rtListAfterAcquire.used_by_realtime_controllers_index ≠ some 1 := by
  have hstep : RTListStep rtListInit rtListAfterAcquire := by
    have h := RTListStep.writer_acquire rtListInit rfl (by decide)
    simpa [rtListInit, rtListAfterAcquire, otherList] using h
  exact C3_double_buffer_safety _ (RTListReachable.step RTListReachable.init hstep) 1 rfl

/-! Lemmas for the following-offset configuration (claim C10). -/

lemma posUpdateActive_set_offset (s : GenericSystem) (r : ℚ) :
    posUpdateActive { s with position_state_following_offset := r } = posUpdateActive s := rfl

lemma velUpdateActive_set_offset (s : GenericSystem) (r : ℚ) :
    velUpdateActive { s with position_state_following_offset := r } = velUpdateActive s := rfl

lemma readPhase1_set_offset (dt r : ℚ) (s : GenericSystem)
    (hcust : s.custom_interface_with_following_offset ≠ "") :
    readPhase1 dt { s with position_state_following_offset := r } = readPhase1 dt s := by
  have hite : ∀ q : ℚ, (if s.custom_interface_with_following_offset = "" then q else 0) = 0 :=
    fun q => if_neg hcust
  dsimp only [readPhase1]
  simp only [posUpdateActive_set_offset, hite]

lemma readPhase2_set_offset (dt r : ℚ) (s : GenericSystem)
    (hcust : s.custom_interface_with_following_offset ≠ "") :
    readPhase2 dt { s with position_state_following_offset := r } = readPhase2 dt s := by
  dsimp only [readPhase2]
  rw [readPhase1_set_offset dt r s hcust]
  simp only [velUpdateActive_set_offset]

lemma readCommands_set_offset (dt r : ℚ) (s : GenericSystem)
    (hcust : s.custom_interface_with_following_offset ≠ "") :
    readCommands dt { s with position_state_following_offset := r } = readCommands dt s := by
  dsimp only [readCommands]
  rw [readPhase2_set_offset dt r s hcust]
  simp only [velUpdateActive_set_offset]

lemma readPhase4_set_offset (dt r : ℚ) (s : GenericSystem)
    (hcust : s.custom_interface_with_following_offset ≠ "") :
    readPhase4 dt { s with position_state_following_offset := r } = readPhase4 dt s := by
  dsimp only [readPhase4]
  rw [readPhase2_set_offset dt r s hcust, readCommands_set_offset dt r s hcust]

lemma readJointStates_set_offset (dt r : ℚ) (s : GenericSystem)
    (hcust : s.custom_interface_with_following_offset ≠ "") :
    readJointStates dt { s with position_state_following_offset := r }
      = readJointStates dt s := by
  dsimp only [readJointStates]
  rw [readPhase4_set_offset dt r s hcust]

lemma readOtherStates_set_offset (dt r : ℚ) (s : GenericSystem)
    (hidx : s.index_custom_interface_with_following_offset = none)
    (hcust : s.custom_interface_with_following_offset ≠ "") :
    readOtherStates dt { s with position_state_following_offset := r }
      = readOtherStates dt s := by
  dsimp only [readOtherStates]
  rw [readCommands_set_offset dt r s hcust]
  simp [hidx]

lemma findIdx?_go_none_of_not_mem (l : List String) (nm : String) (h : nm ∉ l) :
    ∀ st, l.findIdx? (fun x => x = nm) st = none := by
  induction l with
  | nil => intro st; rfl
  | cons a t ih =>
    intro st
    have ha : a ≠ nm := fun hc => h (hc ▸ List.mem_cons_self a t)
    rw [List.findIdx?_cons, if_neg (by simp [ha])]
    exact ih (fun hc => h (List.mem_cons_of_mem a hc)) (st + 1)

lemma findIdx?_none_of_not_mem (l : List String) (nm : String) (h : nm ∉ l) :
    l.findIdx? (fun x => x = nm) = none :=
  findIdx?_go_none_of_not_mem l nm h 0

/-- C10 (as claimed): when the configuration names a non-empty custom
interface to carry the following offset but that name is not among the
discovered "other" interfaces, configure still succeeds (this very situation
is the hypothesis `configure std info = some gs`; the witness exhibits a
concrete success), the binding index stays at its sentinel, and the offset is
applied nowhere: every observable matrix produced by a step is identical to
what it would be with any other offset value, and in particular the position
state receives an offset of zero. -/
theorem C10_missing_custom_interface (std : List String) (info : HardwareInfo)
    (nm ofsStr : String) (gs : GenericSystem)
    (hofs : lookupParam info.hardware_parameters "position_state_following_offset"
      = some ofsStr)
    (hcn : lookupParam info.hardware_parameters "custom_interface_with_following_offset"
      = some nm)
    (hne : nm ≠ "")
    (hnm : nm ∉ discoverOther std info.joints)
    (hconf : configure std info = some gs) :
    gs.custom_interface_with_following_offset = nm ∧
      gs.index_custom_interface_with_following_offset = none ∧
      ∀ dt r : ℚ,
        (read dt { gs with position_state_following_offset := r }).joint_states
            = (read dt gs).joint_states ∧
          (read dt { gs with position_state_following_offset := r }).joint_commands
            = (read dt gs).joint_commands ∧
          (read dt { gs with position_state_following_offset := r }).other_states
            = (read dt gs).other_states ∧
          (read dt { gs with position_state_following_offset := r }).sensor_states
            = (read dt gs).sensor_states := by
  have hop : offsetParams info = (stod ofsStr).map (fun q => (q, nm)) := by
    simp only [offsetParams, hofs, hcn, Option.getD_some]
  simp only [configure, hop] at hconf
  cases hst : stod ofsStr with
  | none => rw [hst] at hconf; cases hconf
  | some q =>
    rw [hst] at hconf
    simp only [Option.map_some', Option.getD_some] at hconf
    cases hini : initStates info.joints std with
    | none => rw [hini] at hconf; cases hconf
    | some js0 =>
      rw [hini] at hconf
      cases hmim : scanMimics info.joints with
      | none => rw [hmim] at hconf; cases hconf
      | some mimics =>
        rw [hmim] at hconf
        cases hoth : initStates info.joints (discoverOther std info.joints) with
        | none => rw [hoth] at hconf; cases hconf
        | some os =>
          rw [hoth] at hconf
          cases hsen : initStates info.joints (discoverSensor info.sensors) with
          | none => rw [hsen] at hconf; cases hconf
          | some ss =>
            rw [hsen] at hconf
            dsimp only at hconf
            rw [Option.some_inj] at hconf
            have hcust : gs.custom_interface_with_following_offset = nm := by
              rw [← hconf]
            have hidx : gs.index_custom_interface_with_following_offset = none := by
              rw [← hconf]
              show (if nm = "" then none
                else (discoverOther std info.joints).findIdx? (fun ifc => ifc = nm)) = none
              rw [if_neg hne]
              exact findIdx?_none_of_not_mem _ nm hnm
            have hcne : gs.custom_interface_with_following_offset ≠ "" := by
              rw [hcust]; exact hne
            refine ⟨hcust, hidx, ?_⟩
            intro dt r
            refine ⟨?_, ?_, ?_, ?_⟩
            · show readJointStates dt _ = readJointStates dt gs
              exact readJointStates_set_offset dt r gs hcne
            · show readCommands dt _ = readCommands dt gs
              exact readCommands_set_offset dt r gs hcne
            · show readOtherStates dt _ = readOtherStates dt gs
              exact readOtherStates_set_offset dt r gs hidx hcne
            · show readSensorStates _ = readSensorStates gs
              rfl

/-- C10 witness: configuring `info10` succeeds with the binding index at its
sentinel, and a step computes the same matrices whether the configured offset
is 3/2 or 99: the offset is applied nowhere. -/
theorem C10_missing_custom_interface_witness :
    gsC10.custom_interface_with_following_offset = "foo" ∧
      gsC10.index_custom_interface_with_following_offset = none ∧
      (read 1 { gsC10 with position_state_following_offset := 99 }).joint_states
        = (read 1 gsC10).joint_states := by
  have h := C10_missing_custom_interface standardInterfacesDefault info10 "foo" "1.5"
    gsC10 (by decide) (by decide) (by decide) (by decide) (by decide)
  exact ⟨h.1, h.2.1, (h.2.2 1 99).1⟩

/-! Lemmas about `mapMO` and the storage initialisation (claim C5). -/

lemma mapMO_length (f : α → Option β) (l : List α) (l' : List β)
    (h : mapMO f l = some l') : l'.length = l.length := by
  induction l generalizing l' with
  | nil =>
    simp only [mapMO, Option.some_inj] at h
    rw [← h]
    rfl
  | cons a t ih =>
    simp only [mapMO] at h
    cases hfa : f a with
    | none => rw [hfa] at h; cases h
    | some b =>
      rw [hfa] at h
      cases hft : mapMO f t with
      | none => rw [hft] at h; cases h
      | some bs =>
        rw [hft, Option.some_inj] at h
        rw [← h]
        simp [ih bs hft]

lemma mapMO_getD (f : α → Option β) (l : List α) (l' : List β)
    (h : mapMO f l = some l') (i : ℕ) (hi : i < l.length) (d : α) (d' : β) :
    f (l.getD i d) = some (l'.getD i d') := by
  induction l generalizing l' i with
  | nil => simp at hi
  | cons a t ih =>
    simp only [mapMO] at h
    cases hfa : f a with
    | none => rw [hfa] at h; cases h
    | some b =>
      rw [hfa] at h
      cases hft : mapMO f t with
      | none => rw [hft] at h; cases h
      | some bs =>
        rw [hft, Option.some_inj] at h
        rw [← h]
        cases i with
        | zero => simpa using hfa
        | succ k => simpa using ih bs hft k (by simpa using hi)

lemma initCommands_length (joints : List ComponentInfo) (ifcs : List String) :
    (initCommands joints ifcs).length = ifcs.length := by
  simp [initCommands]

lemma initCommands_row (joints : List ComponentInfo) (ifcs : List String) (i : ℕ)
    (hi : i < ifcs.length) :
    (initCommands joints ifcs).getD i [] = joints.map (fun _ => (none : Val)) := by
  unfold initCommands
  rw [getD_map_of_lt _ _ _ hi ""]

lemma initCommands_cell (joints : List ComponentInfo) (ifcs : List String) (i j : ℕ)
    (hi : i < ifcs.length) (hj : j < joints.length) :
    getCell (initCommands joints ifcs) i j = none := by
  unfold getCell
  rw [initCommands_row joints ifcs i hi, getD_map_of_lt _ _ _ hj default]

lemma initStates_length (joints : List ComponentInfo) (ifcs : List String)
    (sts : List (List Val)) (h : initStates joints ifcs = some sts) :
    sts.length = ifcs.length :=
  mapMO_length _ _ _ h

lemma initStates_row (joints : List ComponentInfo) (ifcs : List String)
    (sts : List (List Val)) (h : initStates joints ifcs = some sts) (i : ℕ)
    (hi : i < ifcs.length) :
    mapMO (fun jt =>
        match lookupParam jt.parameters ("initial_" ++ ifcs.getD i "") with
        | some str => (stod str).map some
        | none => some (none : Val)) joints = some (sts.getD i []) :=
  mapMO_getD _ _ _ h i hi "" []

lemma initStates_row_length (joints : List ComponentInfo) (ifcs : List String)
    (sts : List (List Val)) (h : initStates joints ifcs = some sts) (i : ℕ)
    (hi : i < ifcs.length) :
    (sts.getD i []).length = joints.length :=
  mapMO_length _ _ _ (initStates_row joints ifcs sts h i hi)

lemma initStates_cell_of_no_initial (joints : List ComponentInfo) (ifcs : List String)
    (sts : List (List Val)) (h : initStates joints ifcs = some sts) (i j : ℕ)
    (hi : i < ifcs.length) (hj : j < joints.length)
    (hp : lookupParam (joints.getD j default).parameters
      ("initial_" ++ ifcs.getD i "") = none) :
    getCell sts i j = none := by
  have hrow := mapMO_getD _ _ _ (initStates_row joints ifcs sts h i hi) j hj default none
  rw [hp] at hrow
  rw [Option.some_inj] at hrow
  exact hrow.symm

lemma initStates_cell_of_initial (joints : List ComponentInfo) (ifcs : List String)
    (sts : List (List Val)) (h : initStates joints ifcs = some sts) (i j : ℕ)
    (hi : i < ifcs.length) (hj : j < joints.length) (str : String)
    (hp : lookupParam (joints.getD j default).parameters
      ("initial_" ++ ifcs.getD i "") = some str) :
    ∃ q : ℚ, stod str = some q ∧ getCell sts i j = some q := by
  have hrow := mapMO_getD _ _ _ (initStates_row joints ifcs sts h i hi) j hj default none
  rw [hp] at hrow
  dsimp only at hrow
  cases hst : stod str with
  | none => rw [hst] at hrow; cases hrow
  | some q =>
    rw [hst, Option.map_some', Option.some_inj] at hrow
    exact ⟨q, rfl, hrow.symm⟩

lemma mem_interface_foldl (standard : List String) (l : List String) (acc : List String)
    (x : String) :
    (x ∈ l.foldl (fun a ifc => if ifc ∈ standard ∨ ifc ∈ a then a else a ++ [ifc]) acc)
      ↔ x ∈ acc ∨ (x ∈ l ∧ x ∉ standard) := by
  induction l generalizing acc with
  | nil => simp
  | cons b t ih =>
    simp only [List.foldl_cons]
    by_cases hcond : b ∈ standard ∨ b ∈ acc
    · rw [if_pos hcond, ih]
      simp only [List.mem_cons]
      constructor
      · rintro (hx | ⟨hx, hs⟩)
        · exact Or.inl hx
        · exact Or.inr ⟨Or.inr hx, hs⟩
      · rintro (hx | ⟨hx | hx, hs⟩)
        · exact Or.inl hx
        · subst hx
          rcases hcond with hc | hc
          · exact absurd hc hs
          · exact Or.inl hc
        · exact Or.inr ⟨hx, hs⟩
    · rw [if_neg hcond, ih]
      push_neg at hcond
      simp only [List.mem_append, List.mem_singleton, List.mem_cons, List.not_mem_nil, or_false]
      constructor
      · rintro ((hx | hx) | ⟨hx, hs⟩)
        · exact Or.inl hx
        · subst hx
          exact Or.inr ⟨Or.inl rfl, hcond.1⟩
        · exact Or.inr ⟨Or.inr hx, hs⟩
      · rintro (hx | ⟨hx | hx, hs⟩)
        · exact Or.inl (Or.inl hx)
        · subst hx
          exact Or.inl (Or.inr rfl)
        · exact Or.inr ⟨hx, hs⟩

lemma mem_discoverOther_aux (standard : List String) (joints : List ComponentInfo)
    (acc : List String) (x : String) :
    (x ∈ joints.foldl (fun acc jt =>
        jt.state_interfaces.foldl
          (fun a ifc => if ifc ∈ standard ∨ ifc ∈ a then a else a ++ [ifc])
          (jt.command_interfaces.foldl
            (fun a ifc => if ifc ∈ standard ∨ ifc ∈ a then a else a ++ [ifc]) acc)) acc)
      ↔ x ∈ acc ∨ (x ∉ standard ∧ ∃ jt ∈ joints,
        x ∈ jt.command_interfaces ∨ x ∈ jt.state_interfaces) := by
  induction joints generalizing acc with
  | nil => simp
  | cons jt t ih =>
    simp only [List.foldl_cons]
    rw [ih]
    rw [mem_interface_foldl, mem_interface_foldl]
    simp only [List.mem_cons]
    constructor
    · rintro (((hx | ⟨hx, hs⟩) | ⟨hx, hs⟩) | ⟨hs, jt', hjt', hx⟩)
      · exact Or.inl hx
      · exact Or.inr ⟨hs, jt, Or.inl rfl, Or.inl hx⟩
      · exact Or.inr ⟨hs, jt, Or.inl rfl, Or.inr hx⟩
      · exact Or.inr ⟨hs, jt', Or.inr hjt', hx⟩
    · rintro (hx | ⟨hs, jt', hjt' | hjt', hx⟩)
      · exact Or.inl (Or.inl (Or.inl hx))
      · subst hjt'
        rcases hx with hx | hx
        · exact Or.inl (Or.inl (Or.inr ⟨hx, hs⟩))
        · exact Or.inl (Or.inr ⟨hx, hs⟩)
      · exact Or.inr ⟨hs, jt', hjt', hx⟩

lemma mem_discoverOther (standard : List String) (joints : List ComponentInfo) (x : String) :
    x ∈ discoverOther standard joints
      ↔ x ∉ standard ∧ ∃ jt ∈ joints,
        x ∈ jt.command_interfaces ∨ x ∈ jt.state_interfaces := by
  unfold discoverOther
  rw [mem_discoverOther_aux]
  simp

/-- C5 (amended): after configuration succeeds, the standard storage holds
one command row and one state row for every interface of the fixed standard
vocabulary whether or not any joint declares it, and the "other" storage
holds a row exactly for each discovered name, i.e. for each non-standard
interface declared by some joint; every row has one cell per joint.  Cells
hold the NaN sentinel unless a declared initial value overrode them, except
that standard state cells default to 0 when no initial value is declared and
the velocity command row is reset to 0; other-interface command cells are
always NaN. -/
theorem C5_storage_layout (std : List String) (info : HardwareInfo) (gs : GenericSystem)
    (hconf : configure std info = some gs) :
    gs.joint_states.length = std.length ∧
      gs.joint_commands.length = std.length ∧
      (∀ i, i < std.length → (gs.joint_states.getD i []).length = info.joints.length) ∧
      (∀ i, i < std.length → (gs.joint_commands.getD i []).length = info.joints.length) ∧
      gs.other_interfaces = discoverOther std info.joints ∧
      (∀ x, x ∈ gs.other_interfaces ↔ x ∉ std ∧ ∃ jt ∈ info.joints,
        x ∈ jt.command_interfaces ∨ x ∈ jt.state_interfaces) ∧
      gs.other_states.length = gs.other_interfaces.length ∧
      gs.other_commands.length = gs.other_interfaces.length ∧
      (∀ i, i < gs.other_interfaces.length →
        (gs.other_states.getD i []).length = info.joints.length) ∧
      (∀ i j, i < std.length → j < info.joints.length →
        lookupParam (info.joints.getD j default).parameters
          ("initial_" ++ std.getD i "") = none →
        getCell gs.joint_states i j = some 0) ∧
      (∀ i j str, i < std.length → j < info.joints.length →
        lookupParam (info.joints.getD j default).parameters
          ("initial_" ++ std.getD i "") = some str →
        ∃ q : ℚ, stod str = some q ∧ getCell gs.joint_states i j = some q) ∧
      (∀ i j, i < std.length → j < info.joints.length →
        getCell gs.joint_commands i j = if i = VEL_IDX then some 0 else none) ∧
      (∀ i j, i < gs.other_interfaces.length → j < info.joints.length →
        lookupParam (info.joints.getD j default).parameters
          ("initial_" ++ gs.other_interfaces.getD i "") = none →
        getCell gs.other_states i j = none) ∧
      (∀ i j, i < gs.other_interfaces.length → j < info.joints.length →
        getCell gs.other_commands i j = none) := by
  simp only [configure] at hconf
  cases hoc : offsetParams info with
  | none => rw [hoc] at hconf; cases hconf
  | some pc =>
    rw [hoc] at hconf
    obtain ⟨offset, custom⟩ := pc
    cases hini : initStates info.joints std with
    | none => rw [hini] at hconf; cases hconf
    | some js0 =>
      rw [hini] at hconf
      cases hmim : scanMimics info.joints with
      | none => rw [hmim] at hconf; cases hconf
      | some mimics =>
        rw [hmim] at hconf
        cases hoth : initStates info.joints (discoverOther std info.joints) with
        | none => rw [hoth] at hconf; cases hconf
        | some os =>
          rw [hoth] at hconf
          cases hsen : initStates info.joints (discoverSensor info.sensors) with
          | none => rw [hsen] at hconf; cases hconf
          | some ss =>
            rw [hsen] at hconf
            dsimp only at hconf
            rw [Option.some_inj] at hconf
            subst hconf
            dsimp only
            have hol : (initCommands info.joints std).length = std.length :=
              initCommands_length info.joints std
            refine ⟨?_, ?_, ?_, ?_, rfl, ?_, ?_, ?_, ?_, ?_, ?_, ?_, ?_, ?_⟩
            · rw [List.length_map]
              exact initStates_length _ _ _ hini
            · rw [List.length_set]
              exact hol
            · intro i hi
              rw [getD_map_of_lt _ _ _ (by rw [initStates_length _ _ _ hini]; exact hi) []]
              rw [List.length_map]
              exact initStates_row_length _ _ _ hini i hi
            · intro i hi
              by_cases hv : i = VEL_IDX
              · subst hv
                rw [getD_set_self _ _ _ _ (by rw [hol]; exact hi), List.length_map,
                  initCommands_row _ _ _ hi, List.length_map]
              · rw [getD_set_ne _ (fun hc => hv hc.symm), initCommands_row _ _ _ hi,
                  List.length_map]
            · intro x
              exact mem_discoverOther std info.joints x
            · exact initStates_length _ _ _ hoth
            · exact initCommands_length _ _
            · intro i hi
              exact initStates_row_length _ _ _ hoth i hi
            · intro i j hi hj hp
              unfold getCell
              rw [getD_map_of_lt _ _ _ (by rw [initStates_length _ _ _ hini]; exact hi) [],
                getD_map_of_lt _ _ _ (by rw [initStates_row_length _ _ _ hini i hi]; exact hj)
                  none]
              have hc := initStates_cell_of_no_initial _ _ _ hini i j hi hj hp
              unfold getCell at hc
              rw [hc]
              rfl
            · intro i j str hi hj hp
              obtain ⟨q, hq, hc⟩ := initStates_cell_of_initial _ _ _ hini i j hi hj str hp
              refine ⟨q, hq, ?_⟩
              unfold getCell
              rw [getD_map_of_lt _ _ _ (by rw [initStates_length _ _ _ hini]; exact hi) [],
                getD_map_of_lt _ _ _ (by rw [initStates_row_length _ _ _ hini i hi]; exact hj)
                  none]
              unfold getCell at hc
              rw [hc]
              rfl
            · intro i j hi hj
              by_cases hv : i = VEL_IDX
              · subst hv
                rw [if_pos rfl]
                unfold getCell
                have hlen2 : j < ((initCommands info.joints std).getD VEL_IDX []).length := by
                  rw [initCommands_row _ _ _ hi, List.length_map]
                  exact hj
                rw [getD_set_self _ _ _ _ (by rw [hol]; exact hi),
                  getD_map_of_lt _ _ _ hlen2 none]
              · rw [if_neg hv]
                unfold getCell
                rw [getD_set_ne _ (fun hc => hv hc.symm)]
                exact initCommands_cell _ _ _ _ hi hj
            · intro i j hi hj hp
              exact initStates_cell_of_no_initial _ _ _ hoth i j hi hj hp
            · intro i j hi hj
              exact initCommands_cell _ _ _ _ hi hj

/-- C5 counterexample: configuring `info5` (a single joint declaring only
"position", no initial values) still allocates a standard row with one slot
per joint for the undeclared "velocity" and "effort" interfaces, and the
position state slot holds 0 instead of the NaN sentinel even though no
initial value overrode it; the velocity command slot holds 0 as well. -/
theorem C5_counterexample :
    configure standardInterfacesDefault info5 = some gsC5 ∧
      "effort" ∈ standardInterfacesDefault ∧
      (∀ jt ∈ info5.joints, "effort" ∉ jt.command_interfaces ∧
        "effort" ∉ jt.state_interfaces ∧ "velocity" ∉ jt.command_interfaces ∧
        "velocity" ∉ jt.state_interfaces) ∧
      gsC5.joint_states.length = 4 ∧
      (gsC5.joint_states.getD 3 []).length = 1 ∧
      (gsC5.joint_states.getD 1 []).length = 1 ∧
      lookupParam ((info5.joints.getD 0 default).parameters) "initial_position" = none ∧
      getCell gsC5.joint_states 0 0 = some 0 ∧
      getCell gsC5.joint_commands 1 0 = some 0 := by
  decide

/-- C5 witness: the amended storage characterization instantiated on `info5`:
four standard rows of one cell each, no discovered other interface, position
state defaulted to 0 and position command left at the sentinel. -/
theorem C5_storage_layout_witness :
    gsC5.joint_states.length = standardInterfacesDefault.length ∧
      (gsC5.joint_states.getD 0 []).length = info5.joints.length ∧
      ("effort" ∈ gsC5.other_interfaces ↔ "effort" ∉ standardInterfacesDefault ∧
        ∃ jt ∈ info5.joints, "effort" ∈ jt.command_interfaces ∨
          "effort" ∈ jt.state_interfaces) ∧
      getCell gsC5.joint_states 0 0 = some 0 ∧
      getCell gsC5.joint_commands 0 0 = (if (0 : ℕ) = VEL_IDX then some 0 else none) := by
  have h := C5_storage_layout standardInterfacesDefault info5 gsC5 (by rfl)
  refine ⟨h.1, h.2.2.1 0 (by decide), h.2.2.2.2.2.1 "effort", ?_, ?_⟩
  · exact h.2.2.2.2.2.2.2.2.2.1 0 0 (by decide) (by decide) (by decide)
  · exact h.2.2.2.2.2.2.2.2.2.2.2.1 0 0 (by decide) (by decide)

/-! Counting lemmas for the mode-switch gate (claim C6). -/

lemma startModesOf_eq_modePushes (joints : List ComponentInfo) (keys : List String) :
    startModesOf joints keys = modePushes "position" "velocity" joints keys := rfl

lemma stopModesOf_eq_modePushes (joints : List ComponentInfo) (keys : List String) :
    stopModesOf joints keys
      = modePushes StoppingInterface.STOP_POSITION StoppingInterface.STOP_VELOCITY joints
        keys := rfl

lemma sum_map_le_length (l : List α) (f : α → ℕ) (hle : ∀ x ∈ l, f x ≤ 1) :
    (l.map f).sum ≤ l.length := by
  induction l with
  | nil => simp
  | cons a t ih =>
    simp only [List.map_cons, List.sum_cons, List.length_cons]
    have h1 := hle a (List.mem_cons_self a t)
    have h2 := ih (fun x hx => hle x (List.mem_cons_of_mem a hx))
    omega

lemma sum_map_all_ones (l : List α) (f : α → ℕ) (hle : ∀ x ∈ l, f x ≤ 1)
    (hsum : (l.map f).sum = l.length) : ∀ x ∈ l, f x = 1 := by
  induction l with
  | nil => intro x hx; cases hx
  | cons a t ih =>
    simp only [List.map_cons, List.sum_cons, List.length_cons] at hsum
    have h1 := hle a (List.mem_cons_self a t)
    have hlet := fun x hx => hle x (List.mem_cons_of_mem a hx)
    have h2 := sum_map_le_length t f hlet
    have ha : f a = 1 := by omega
    intro x hx
    rcases List.mem_cons.mp hx with hx | hx
    · subst hx; exact ha
    · exact ih hlet (by omega) x hx

lemma sum_map_add (l : List α) (f g : α → ℕ) :
    (l.map (fun a => f a + g a)).sum = (l.map f).sum + (l.map g).sum := by
  induction l with
  | nil => rfl
  | cons a t ih =>
    simp only [List.map_cons, List.sum_cons, ih]
    omega

lemma sum_map_swap (l1 : List α) (l2 : List β) (f : α → β → ℕ) :
    (l1.map (fun a => (l2.map (f a)).sum)).sum
      = (l2.map (fun b => (l1.map (fun a => f a b)).sum)).sum := by
  induction l1 with
  | nil => simp
  | cons a t ih =>
    simp only [List.map_cons, List.sum_cons, ih, ← sum_map_add]

lemma count_eq_sum_ite (keys : List String) (c : String) :
    (keys.map (fun k => if k = c then 1 else 0)).sum = keys.count c := by
  induction keys with
  | nil => rfl
  | cons a t ih =>
    simp only [List.map_cons, List.sum_cons, List.count_cons, ih]
    by_cases h : a = c
    · simp [h]
      omega
    · simp [h]

lemma innerPush_length (P V : α) (k : String) (joints : List ComponentInfo) :
    (joints.flatMap (fun jt =>
        (if k = jt.name ++ "/position" then [P] else []) ++
          (if k = jt.name ++ "/velocity" then [V] else []))).length
      = (joints.map (fun jt =>
          (if k = jt.name ++ "/position" then 1 else 0)
            + (if k = jt.name ++ "/velocity" then 1 else 0))).sum := by
  induction joints with
  | nil => rfl
  | cons jt t ih =>
    simp only [List.flatMap_cons, List.length_append, List.map_cons, List.sum_cons, ih]
    congr 1
    congr 1 <;> split <;> rfl

lemma modePushes_length_eq (P V : α) (joints : List ComponentInfo) (keys : List String) :
    (modePushes P V joints keys).length
      = (joints.map (fun jt => (keys.map (fun k =>
          (if k = jt.name ++ "/position" then 1 else 0)
            + (if k = jt.name ++ "/velocity" then 1 else 0))).sum)).sum := by
  unfold modePushes
  rw [List.length_flatMap]
  rw [show List.map (List.length ∘ fun key => joints.flatMap (fun jt =>
      (if key = jt.name ++ "/position" then [P] else []) ++
        (if key = jt.name ++ "/velocity" then [V] else []))) keys
    = List.map (fun k => (joints.map (fun jt =>
        (if k = jt.name ++ "/position" then 1 else 0)
          + (if k = jt.name ++ "/velocity" then 1 else 0))).sum) keys from
    List.map_congr_left (fun k _ => innerPush_length P V k joints)]
  exact sum_map_swap keys joints (fun k jt =>
    (if k = jt.name ++ "/position" then 1 else 0)
      + (if k = jt.name ++ "/velocity" then 1 else 0))

lemma mem_ite_singleton (c : Prop) [Decidable c] (x y : α) :
    (x ∈ if c then [y] else []) ↔ c ∧ x = y := by
  split
  · simp [*]
  · simp [*]

lemma mem_modePushes (P V x : α) (joints : List ComponentInfo) (keys : List String) :
    x ∈ modePushes P V joints keys
      ↔ ∃ k ∈ keys, ∃ jt ∈ joints,
        ((k = jt.name ++ "/position" ∧ x = P) ∨ (k = jt.name ++ "/velocity" ∧ x = V)) := by
  unfold modePushes
  simp only [List.mem_flatMap, List.mem_append, mem_ite_singleton]

lemma chainEq_all_eq [DecidableEq α] (a : α) (t : List α) (h : chainEq (a :: t) = true) :
    ∀ x ∈ a :: t, x = a := by
  induction t generalizing a with
  | nil => intro x hx; simpa using hx
  | cons b t ih =>
    simp only [chainEq, Bool.and_eq_true, decide_eq_true_eq] at h
    intro x hx
    rcases List.mem_cons.mp hx with hx | hx
    · exact hx
    · rw [ih b h.2 x hx]
      exact h.1

lemma modePushes_ne_nil_of_matched (P V : α) (joints : List ComponentInfo)
    (keys : List String) (jt : ComponentInfo) (hjt : jt ∈ joints)
    (hm : matchedBy keys jt) : modePushes P V joints keys ≠ [] := by
  obtain ⟨k, hk, hkm | hkm⟩ := hm
  · have hmem : P ∈ modePushes P V joints keys :=
      (mem_modePushes P V P joints keys).mpr ⟨k, hk, jt, hjt, Or.inl ⟨hkm, rfl⟩⟩
    intro hnil
    rw [hnil] at hmem
    cases hmem
  · have hmem : V ∈ modePushes P V joints keys :=
      (mem_modePushes P V V joints keys).mpr ⟨k, hk, jt, hjt, Or.inr ⟨hkm, rfl⟩⟩
    intro hnil
    rw [hnil] at hmem
    cases hmem

lemma modePushes_all_matched [DecidableEq α] (P V : α) (hPV : P ≠ V)
    (joints : List ComponentInfo) (keys : List String) (hkeys : keys.Nodup)
    (hne : modePushes P V joints keys ≠ [])
    (hlen : (modePushes P V joints keys).length = joints.length)
    (hch : chainEq (modePushes P V joints keys) = true) :
    ∀ jt ∈ joints, matchedBy keys jt := by
  obtain ⟨h0, t0, hl⟩ := List.exists_cons_of_ne_nil hne
  have hall : ∀ x ∈ modePushes P V joints keys, x = h0 := by
    rw [hl]
    exact chainEq_all_eq h0 t0 (hl ▸ hch)
  have hh0 : h0 = P ∨ h0 = V := by
    have hmem : h0 ∈ modePushes P V joints keys := hl ▸ List.mem_cons_self h0 t0
    rcases (mem_modePushes P V h0 joints keys).mp hmem with
      ⟨k, hk, jt, hjt, ⟨hkk, hx⟩ | ⟨hkk, hx⟩⟩
    · exact Or.inl hx
    · exact Or.inr hx
  rcases hh0 with h0P | h0V
  · have hnovel : ∀ k ∈ keys, ∀ jt ∈ joints, k ≠ jt.name ++ "/velocity" := by
      intro k hk jt hjt hc
      have hV : V ∈ modePushes P V joints keys :=
        (mem_modePushes P V V joints keys).mpr ⟨k, hk, jt, hjt, Or.inr ⟨hc, rfl⟩⟩
      have hVh := hall V hV
      rw [h0P] at hVh
      exact hPV hVh.symm
    have hse : ∀ jt ∈ joints, (keys.map (fun k =>
        (if k = jt.name ++ "/position" then 1 else 0)
          + (if k = jt.name ++ "/velocity" then 1 else 0))).sum
        = keys.count (jt.name ++ "/position") := by
      intro jt hjt
      rw [List.map_congr_left (fun k hk => by
        rw [if_neg (hnovel k hk jt hjt)]
        omega : ∀ k ∈ keys, (if k = jt.name ++ "/position" then 1 else 0)
          + (if k = jt.name ++ "/velocity" then 1 else 0)
          = if k = jt.name ++ "/position" then 1 else 0)]
      exact count_eq_sum_ite keys (jt.name ++ "/position")
    have hle : ∀ jt ∈ joints, (keys.map (fun k =>
        (if k = jt.name ++ "/position" then 1 else 0)
          + (if k = jt.name ++ "/velocity" then 1 else 0))).sum ≤ 1 := by
      intro jt hjt
      rw [hse jt hjt]
      exact List.nodup_iff_count_le_one.mp hkeys _
    have hones := sum_map_all_ones joints _ hle (by
      rw [← modePushes_length_eq P V joints keys]
      exact hlen)
    intro jt hjt
    have h1 : keys.count (jt.name ++ "/position") = 1 := by
      rw [← hse jt hjt]
      exact hones jt hjt
    have hmemk : jt.name ++ "/position" ∈ keys := List.count_pos_iff.mp (by omega)
    exact ⟨_, hmemk, Or.inl rfl⟩
  · have hnopos : ∀ k ∈ keys, ∀ jt ∈ joints, k ≠ jt.name ++ "/position" := by
      intro k hk jt hjt hc
      have hP : P ∈ modePushes P V joints keys :=
        (mem_modePushes P V P joints keys).mpr ⟨k, hk, jt, hjt, Or.inl ⟨hc, rfl⟩⟩
      have hPh := hall P hP
      rw [h0V] at hPh
      exact hPV hPh
    have hse : ∀ jt ∈ joints, (keys.map (fun k =>
        (if k = jt.name ++ "/position" then 1 else 0)
          + (if k = jt.name ++ "/velocity" then 1 else 0))).sum
        = keys.count (jt.name ++ "/velocity") := by
      intro jt hjt
      rw [List.map_congr_left (fun k hk => by
        rw [if_neg (hnopos k hk jt hjt)]
        omega : ∀ k ∈ keys, (if k = jt.name ++ "/position" then 1 else 0)
          + (if k = jt.name ++ "/velocity" then 1 else 0)
          = if k = jt.name ++ "/velocity" then 1 else 0)]
      exact count_eq_sum_ite keys (jt.name ++ "/velocity")
    have hle : ∀ jt ∈ joints, (keys.map (fun k =>
        (if k = jt.name ++ "/position" then 1 else 0)
          + (if k = jt.name ++ "/velocity" then 1 else 0))).sum ≤ 1 := by
      intro jt hjt
      rw [hse jt hjt]
      exact List.nodup_iff_count_le_one.mp hkeys _
    have hones := sum_map_all_ones joints _ hle (by
      rw [← modePushes_length_eq P V joints keys]
      exact hlen)
    intro jt hjt
    have h1 : keys.count (jt.name ++ "/velocity") = 1 := by
      rw [← hse jt hjt]
      exact hones jt hjt
    have hmemk : jt.name ++ "/velocity" ∈ keys := List.count_pos_iff.mp (by omega)
    exact ⟨_, hmemk, Or.inr rfl⟩

/-- C6 (as claimed, with the start and stop requests read as sets, i.e.
duplicate-free): `prepare_command_mode_switch` returns an error whenever the
requested start set mixes the position and velocity control modes, and
whenever the start or the stop set names only a proper nonempty subset of the
joint group; and in every case prepare leaves the mode flags and every
command and state value untouched (it only rebuilds its validation scratch
lists). -/
theorem C6_prepare_gate (s : GenericSystem) (start_interfaces stop_interfaces : List String)
    (hnd1 : start_interfaces.Nodup) (hnd2 : stop_interfaces.Nodup) :
    (((∃ jt ∈ s.info.joints, matchedBy start_interfaces jt) ∧
        ∃ jt ∈ s.info.joints, ¬ matchedBy start_interfaces jt) →
      (prepare_command_mode_switch s start_interfaces stop_interfaces).2
        = ReturnType.ERROR) ∧
      (((∃ jt ∈ s.info.joints, matchedBy stop_interfaces jt) ∧
          ∃ jt ∈ s.info.joints, ¬ matchedBy stop_interfaces jt) →
        (prepare_command_mode_switch s start_interfaces stop_interfaces).2
          = ReturnType.ERROR) ∧
      (("position" ∈ startModesOf s.info.joints start_interfaces ∧
          "velocity" ∈ startModesOf s.info.joints start_interfaces) →
        (prepare_command_mode_switch s start_interfaces stop_interfaces).2
          = ReturnType.ERROR) ∧
      ((prepare_command_mode_switch s start_interfaces stop_interfaces).1.position_controller_running
          = s.position_controller_running ∧
        (prepare_command_mode_switch s start_interfaces stop_interfaces).1.velocity_controller_running
          = s.velocity_controller_running ∧
        (prepare_command_mode_switch s start_interfaces stop_interfaces).1.joint_commands
          = s.joint_commands ∧
        (prepare_command_mode_switch s start_interfaces stop_interfaces).1.joint_states
          = s.joint_states ∧
        (prepare_command_mode_switch s start_interfaces stop_interfaces).1.other_commands
          = s.other_commands ∧
        (prepare_command_mode_switch s start_interfaces stop_interfaces).1.other_states
          = s.other_states ∧
        (prepare_command_mode_switch s start_interfaces stop_interfaces).1.sensor_fake_commands
          = s.sensor_fake_commands ∧
        (prepare_command_mode_switch s start_interfaces stop_interfaces).1.sensor_states
          = s.sensor_states) := by
  refine ⟨?_, ?_, ?_, rfl, rfl, rfl, rfl, rfl, rfl, rfl, rfl⟩
  · rintro ⟨⟨jt1, hjt1, hm1⟩, jt2, hjt2, hm2⟩
    dsimp only [prepare_command_mode_switch]
    rw [if_pos]
    rw [startModesOf_eq_modePushes]
    have hne : modePushes "position" "velocity" s.info.joints start_interfaces ≠ [] :=
      modePushes_ne_nil_of_matched _ _ _ _ jt1 hjt1 hm1
    by_cases hlen : (modePushes "position" "velocity" s.info.joints start_interfaces).length
        = s.info.joints.length
    · by_cases hch : chainEq (modePushes "position" "velocity" s.info.joints
          start_interfaces) = true
      · exact absurd (modePushes_all_matched "position" "velocity" (by decide)
          s.info.joints start_interfaces hnd1 hne hlen hch jt2 hjt2) hm2
      · exact Or.inr (Or.inl ⟨hne, by simpa using hch⟩)
    · exact Or.inl ⟨hne, hlen⟩
  · rintro ⟨⟨jt1, hjt1, hm1⟩, jt2, hjt2, hm2⟩
    dsimp only [prepare_command_mode_switch]
    rw [if_pos]
    rw [stopModesOf_eq_modePushes]
    have hne : modePushes StoppingInterface.STOP_POSITION StoppingInterface.STOP_VELOCITY
        s.info.joints stop_interfaces ≠ [] :=
      modePushes_ne_nil_of_matched _ _ _ _ jt1 hjt1 hm1
    refine Or.inr (Or.inr ⟨hne, ?_⟩)
    by_cases hlen : (modePushes StoppingInterface.STOP_POSITION
        StoppingInterface.STOP_VELOCITY s.info.joints stop_interfaces).length
        = s.info.joints.length
    · by_cases hch : chainEq (modePushes StoppingInterface.STOP_POSITION
          StoppingInterface.STOP_VELOCITY s.info.joints stop_interfaces) = true
      · exact absurd (modePushes_all_matched StoppingInterface.STOP_POSITION
          StoppingInterface.STOP_VELOCITY (by decide) s.info.joints stop_interfaces hnd2
          hne hlen hch jt2 hjt2) hm2
      · exact Or.inr (by simpa using hch)
    · exact Or.inl hlen
  · rintro ⟨hp, hv⟩
    dsimp only [prepare_command_mode_switch]
    rw [if_pos]
    have hne : startModesOf s.info.joints start_interfaces ≠ [] := by
      intro hnil
      rw [hnil] at hp
      cases hp
    have hch : chainEq (startModesOf s.info.joints start_interfaces) = false := by
      by_contra hc
      rw [Bool.not_eq_false] at hc
      obtain ⟨h0, t0, hl⟩ := List.exists_cons_of_ne_nil hne
      have hall := chainEq_all_eq h0 t0 (hl ▸ hc)
      rw [hl] at hp hv
      have h1 := hall _ hp
      have h2 := hall _ hv
      rw [← h2] at h1
      exact absurd h1 (by decide)
    exact Or.inr (Or.inl ⟨hne, hch⟩)

/-- C6 witness: on the two-joint system `gsC6` the start request naming only
j1's position interface is rejected while the mode flags and storage are
untouched. -/
theorem C6_prepare_gate_witness :
    (prepare_command_mode_switch gsC6 ["j1/position"] []).2 = ReturnType.ERROR ∧
      (prepare_command_mode_switch gsC6 ["j1/position"] []).1.position_controller_running
        = gsC6.position_controller_running ∧
      (prepare_command_mode_switch gsC6 ["j1/position"] []).1.joint_commands
        = gsC6.joint_commands ∧
      (prepare_command_mode_switch gsC6 ["j1/position"] []).1.joint_states
        = gsC6.joint_states := by
  have h := C6_prepare_gate gsC6 ["j1/position"] [] (by decide) (by decide)
  exact ⟨h.1 (by decide), h.2.2.2.1, h.2.2.2.2.2.1, h.2.2.2.2.2.2.1⟩
